import Mathlib

set_option maxRecDepth 2048

/-!
Shallow embedding of the yagbe Game Boy emulator core, translated from the
Rust sources, together with theorems settling the specification claims.

Conventions of the embedding:
* Machine integers (`u8`, `u16`, `usize`) are modelled as `Nat`; wrapping
  arithmetic is written with explicit `% 256` / `% 65536`.
* Byte arrays are modelled as total functions `Nat → Nat` with a point
  update helper; `Vec` of banks is a `List` of such functions.
* Rust code that can panic (array index out of bounds, `panic!`,
  `unimplemented!`, `unreachable!`) is embedded in `Option`: `none` marks a
  panic.
* `bitflags` values are stored as their raw `Nat` bit patterns, with the
  operations (`contains`, `insert`, `remove`, `set`, `toggle`,
  `from_bits_truncate`) as small functions.
-/

/-- Point update of a byte-array-as-function, as used for WRAM, HRAM, VRAM,
OAM and wave RAM writes. -/
def upd (f : Nat → Nat) (i v : Nat) : Nat → Nat :=
  fun j => if j = i then v else f j

/-- Bitflags test `self.contains(flag)`: all bits of the mask are set. -/
def flagContains (f mask : Nat) : Bool :=
  f &&& mask == mask

/-- Bitflags `self.insert(flag)`. -/
def flagInsert (f mask : Nat) : Nat :=
  f ||| mask

/-- Bitflags `self.remove(flag)` on an 8-bit register. -/
def flagRemove (f mask : Nat) : Nat :=
  f &&& (0xff ^^^ mask)

/-- Bitflags `self.set(flag, b)` on an 8-bit register. -/
def flagSet (f mask : Nat) (b : Bool) : Nat :=
  if b then flagInsert f mask else flagRemove f mask

/-- Bitflags `self.toggle(flag)`. -/
def flagToggle (f mask : Nat) : Nat :=
  f ^^^ mask

/-- CpuFlags bit ZERO (cpu_registers.rs). -/
def FLAG_ZERO : Nat := 1 <<< 7

/-- CpuFlags bit NEGATIVE (cpu_registers.rs). -/
def FLAG_NEGATIVE : Nat := 1 <<< 6

/-- CpuFlags bit HALF_CARRY (cpu_registers.rs). -/
def FLAG_HALF_CARRY : Nat := 1 <<< 5

/-- CpuFlags bit CARRY (cpu_registers.rs). -/
def FLAG_CARRY : Nat := 1 <<< 4

/-- InterruptFlags bit VBLANK (io_registers.rs). -/
def INT_VBLANK : Nat := 1 <<< 0

/-- InterruptFlags bit LCD_STAT (io_registers.rs). -/
def INT_LCD_STAT : Nat := 1 <<< 1

/-- InterruptFlags bit TIMER (io_registers.rs). -/
def INT_TIMER : Nat := 1 <<< 2

/-- InterruptFlags bit SERIAL (io_registers.rs). -/
def INT_SERIAL : Nat := 1 <<< 3

/-- InterruptFlags bit JOYPAD (io_registers.rs). -/
def INT_JOYPAD : Nat := 1 <<< 4

/-- InterruptFlags `from_bits_truncate`: keep the five defined bits. -/
def intFlagsTruncate (v : Nat) : Nat :=
  v &&& 0x1f

/-- Register file of io_registers.rs (struct IoRegisters).  The fields
`dma_counter` and `window_ly` are not declared in src/src/io_registers.rs;
they are referenced by src/src/cpu.rs and src/src/ppu.rs and belong to a
register-file revision missing from the sources.  Modelled from the spec:
`dma_counter` is the remaining-byte counter of an OAM DMA transfer
(160 at start, 0 when idle) and `window_ly` is the internal window-line
counter that advances only on scanlines where the window was displayed. -/
structure IoRegisters where
  joyp : Nat
  sb : Nat
  sc : Nat
  div : Nat
  cpu_clock : Nat
  tima : Nat
  clock_accumulator : Nat
  tma : Nat
  tac : Nat
  interrupt_flag : Nat
  nr10 : Nat
  nr11 : Nat
  nr12 : Nat
  nr13 : Nat
  nr14 : Nat
  nr21 : Nat
  nr22 : Nat
  nr23 : Nat
  nr24 : Nat
  nr30 : Nat
  nr31 : Nat
  nr32 : Nat
  nr33 : Nat
  nr34 : Nat
  nr41 : Nat
  nr42 : Nat
  nr43 : Nat
  nr44 : Nat
  nr50 : Nat
  nr51 : Nat
  nr52 : Nat
  wave_ram : Nat → Nat
  lcdc : Nat
  stat : Nat
  scy : Nat
  scx : Nat
  ly : Nat
  lyc : Nat
  dma : Nat
  bgp : Nat
  obp0 : Nat
  obp1 : Nat
  wy : Nat
  wx : Nat
  key1 : Nat
  vbk : Nat
  hdma1 : Nat
  hdma2 : Nat
  hdma3 : Nat
  hdma4 : Nat
  hdma5 : Nat
  rp : Nat
  bcps : Nat
  bcpd : Nat
  ocps : Nat
  ocpd : Nat
  opri : Nat
  svbk : Nat
  interrupt_enable : Nat
  dma_counter : Nat
  window_ly : Nat

/-- Power-up register values, IoRegisters::new() in io_registers.rs. -/
def IoRegisters.new : IoRegisters where
  joyp := 0xcf
  sb := 0x00
  sc := 0x7e
  div := 0xab
  cpu_clock := 0
  tima := 0x00
  clock_accumulator := 0
  tma := 0x00
  tac := 0xf8
  interrupt_flag := 0xe1
  nr10 := 0x80
  nr11 := 0xbf
  nr12 := 0xf3
  nr13 := 0xff
  nr14 := 0xbf
  nr21 := 0xbf
  nr22 := 0x00
  nr23 := 0xff
  nr24 := 0xbf
  nr30 := 0x7f
  nr31 := 0xff
  nr32 := 0x9f
  nr33 := 0xff
  nr34 := 0xbf
  nr41 := 0xff
  nr42 := 0x00
  nr43 := 0x00
  nr44 := 0xbf
  nr50 := 0x77
  nr51 := 0xf3
  nr52 := 0xf1
  wave_ram := fun _ => 0
  lcdc := 0x91
  stat := 0x85
  scy := 0x00
  scx := 0x00
  ly := 0x00
  lyc := 0x00
  dma := 0xff
  bgp := 0xfc
  obp0 := 0x00
  obp1 := 0x00
  wy := 0x00
  wx := 0x00
  key1 := 0xff
  vbk := 0xff
  hdma1 := 0xff
  hdma2 := 0xff
  hdma3 := 0xff
  hdma4 := 0xff
  hdma5 := 0xff
  rp := 0xff
  bcps := 0xff
  bcpd := 0xff
  ocps := 0xff
  ocpd := 0xff
  opri := 0xff
  svbk := 0xff
  interrupt_enable := 0x00
  dma_counter := 0
  window_ly := 0

/-- IoRegisters::mem_read (io_registers.rs).  `none` marks the `panic!`
arms (the CGB HDMA registers 0xFF51-0xFF55 and the CGB-only 0xFF76/0xFF77);
the final wildcard arm of the source returns 0xFF. -/
def IoRegisters.mem_read (r : IoRegisters) (addr : Nat) : Option Nat :=
  if addr = 0xff00 then some r.joyp
  else if addr = 0xff01 then some r.sb
  else if addr = 0xff02 then some r.sc
  else if addr = 0xff04 then some r.div
  else if addr = 0xff05 then some r.tima
  else if addr = 0xff06 then some r.tma
  else if addr = 0xff07 then some r.tac
  else if addr = 0xff0f then some r.interrupt_flag
  else if addr = 0xff10 then some r.nr10
  else if addr = 0xff11 then some r.nr11
  else if addr = 0xff12 then some r.nr12
  else if addr = 0xff13 then none
  else if addr = 0xff14 then some r.nr14
  else if addr = 0xff16 then some r.nr21
  else if addr = 0xff17 then some r.nr22
  else if addr = 0xff18 then none
  else if addr = 0xff19 then some r.nr24
  else if addr = 0xff1a then some r.nr30
  else if addr = 0xff1b then none
  else if addr = 0xff1c then some r.nr32
  else if addr = 0xff1d then none
  else if addr = 0xff1e then some r.nr34
  else if addr = 0xff20 then none
  else if addr = 0xff21 then some r.nr42
  else if addr = 0xff22 then some r.nr43
  else if addr = 0xff23 then some r.nr44
  else if addr = 0xff24 then some r.nr50
  else if addr = 0xff25 then some r.nr51
  else if addr = 0xff26 then some r.nr52
  else if 0xff30 ≤ addr ∧ addr ≤ 0xff3f then some (r.wave_ram (addr - 0xff30))
  else if addr = 0xff40 then some r.lcdc
  else if addr = 0xff41 then some r.stat
  else if addr = 0xff42 then some r.scy
  else if addr = 0xff43 then some r.scx
  else if addr = 0xff44 then some r.ly
  else if addr = 0xff45 then some r.lyc
  else if addr = 0xff46 then some r.dma
  else if addr = 0xff47 then some r.bgp
  else if addr = 0xff48 then some r.obp0
  else if addr = 0xff49 then some r.obp1
  else if addr = 0xff4a then some r.wy
  else if addr = 0xff4b then some r.wx
  else if addr = 0xff4d then some r.key1
  else if addr = 0xff4f then some r.vbk
  else if 0xff51 ≤ addr ∧ addr ≤ 0xff55 then none
  else if addr = 0xff56 then some r.rp
  else if addr = 0xff68 then some r.bcps
  else if addr = 0xff69 then some r.bcpd
  else if addr = 0xff6a then some r.ocps
  else if addr = 0xff6b then some r.ocpd
  else if addr = 0xff6c then some r.opri
  else if addr = 0xff70 then some r.svbk
  else if addr = 0xff76 then none
  else if addr = 0xff77 then none
  else if addr = 0xffff then some r.interrupt_enable
  else some 0xff

/-- IoRegisters::mem_write (io_registers.rs).  Every arm of the source is
total (the panic arms are commented out in the source), so this returns a
new register file. -/
def IoRegisters.mem_write (r : IoRegisters) (addr value : Nat) : IoRegisters :=
  if addr = 0xff00 then { r with joyp := value &&& 0b00110000 }
  else if addr = 0xff01 then { r with sb := value }
  else if addr = 0xff02 then { r with sc := value }
  else if addr = 0xff04 then { r with div := 0, cpu_clock := 0 }
  else if addr = 0xff05 then { r with tima := value }
  else if addr = 0xff06 then { r with tma := value }
  else if addr = 0xff07 then
    if (r.tac &&& 0b00000011) ≠ (value &&& 0b00000011) then
      { r with tima := r.tma, clock_accumulator := 0, tac := 0xf8 ||| value }
    else
      { r with tac := 0xf8 ||| value }
  else if addr = 0xff0f then { r with interrupt_flag := intFlagsTruncate value }
  else if addr = 0xff10 then { r with nr10 := value }
  else if addr = 0xff11 then { r with nr11 := value }
  else if addr = 0xff12 then { r with nr12 := value }
  else if addr = 0xff13 then { r with nr13 := value }
  else if addr = 0xff14 then { r with nr14 := value }
  else if addr = 0xff16 then { r with nr21 := value }
  else if addr = 0xff17 then { r with nr22 := value }
  else if addr = 0xff18 then { r with nr23 := value }
  else if addr = 0xff19 then { r with nr24 := value }
  else if addr = 0xff1a then { r with nr30 := value }
  else if addr = 0xff1b then { r with nr31 := value }
  else if addr = 0xff1c then { r with nr32 := value }
  else if addr = 0xff1d then { r with nr33 := value }
  else if addr = 0xff1e then { r with nr34 := value }
  else if addr = 0xff20 then { r with nr41 := value }
  else if addr = 0xff21 then { r with nr42 := value }
  else if addr = 0xff22 then { r with nr43 := value }
  else if addr = 0xff23 then { r with nr44 := value }
  else if addr = 0xff24 then { r with nr50 := value }
  else if addr = 0xff25 then { r with nr51 := value }
  else if addr = 0xff26 then { r with nr52 := value }
  else if 0xff30 ≤ addr ∧ addr ≤ 0xff3f then
    { r with wave_ram := upd r.wave_ram (addr - 0xff30) value }
  else if addr = 0xff40 then { r with lcdc := value }
  else if addr = 0xff41 then { r with stat := value &&& 0b11111000 }
  else if addr = 0xff42 then { r with scy := value }
  else if addr = 0xff43 then { r with scx := value }
  else if addr = 0xff44 then r
  else if addr = 0xff45 then { r with lyc := value }
  else if addr = 0xff46 then { r with dma := value }
  else if addr = 0xff47 then { r with bgp := value }
  else if addr = 0xff48 then { r with obp0 := value }
  else if addr = 0xff49 then { r with obp1 := value }
  else if addr = 0xff4a then { r with wy := value }
  else if addr = 0xff4b then { r with wx := value }
  else if addr = 0xff4d then r
  else if addr = 0xff4f then r
  else if addr = 0xff51 then { r with hdma1 := value }
  else if addr = 0xff52 then { r with hdma2 := value }
  else if addr = 0xff53 then { r with hdma3 := value }
  else if addr = 0xff54 then { r with hdma4 := value }
  else if addr = 0xff55 then { r with hdma5 := value }
  else if addr = 0xffff then { r with interrupt_enable := intFlagsTruncate value }
  else r

/-- Audio state of gameboy/apu.rs (struct Apu).  The float-typed mixing
fields (`accumulator`, `buffer`, `master_volume`, `sample_rate`) are not
modelled: they are never touched by `mem_read`/`mem_write`, the only APU
operations the claims depend on.  Envelope directions (`i8` in the source)
are `Int`. -/
structure Apu where
  div_prev : Nat
  div_apu : Nat
  nr10 : Nat
  nr11 : Nat
  nr12 : Nat
  nr13 : Nat
  nr14 : Nat
  ch1_freq_sweep_addition : Bool
  ch1_freq_sweep_slope : Nat
  ch1_freq_sweep_pace : Nat
  ch1_freq_sweep_counter : Nat
  ch1_length_timer : Nat
  ch1_envelope_sweep_pace : Nat
  ch1_envelope_sweep_counter : Nat
  ch1_envelope_sweep_direction_increase : Int
  ch1_period_counter : Nat
  ch1_duty_counter : Nat
  ch1_volume : Nat
  nr21 : Nat
  nr22 : Nat
  nr23 : Nat
  nr24 : Nat
  ch2_length_timer : Nat
  ch2_envelope_sweep_pace : Nat
  ch2_envelope_sweep_counter : Nat
  ch2_envelope_sweep_direction_increase : Int
  ch2_period_counter : Nat
  ch2_duty_counter : Nat
  ch2_volume : Nat
  nr30 : Nat
  nr31 : Nat
  nr32 : Nat
  nr33 : Nat
  nr34 : Nat
  ch3_length_timer : Nat
  ch3_period_counter : Nat
  ch3_sample_counter : Nat
  nr41 : Nat
  nr42 : Nat
  nr43 : Nat
  nr44 : Nat
  ch4_length_timer : Nat
  ch4_envelope_sweep_pace : Nat
  ch4_envelope_sweep_counter : Nat
  ch4_envelope_sweep_direction_increase : Int
  ch4_tick_counter : Nat
  ch4_lsfr : Nat
  ch4_volume : Nat
  nr50 : Nat
  nr51 : Nat
  nr52 : Nat
  wave_ram : Nat → Nat

/-- Power-up audio state, Apu::new() in gameboy/apu.rs. -/
def Apu.new : Apu where
  div_prev := 0
  div_apu := 0
  nr10 := 0x80
  nr11 := 0xbf
  nr12 := 0xf3
  nr13 := 0xff
  nr14 := 0xbf
  ch1_freq_sweep_addition := false
  ch1_freq_sweep_slope := 0
  ch1_freq_sweep_pace := 0
  ch1_freq_sweep_counter := 0
  ch1_length_timer := 0x1f
  ch1_envelope_sweep_pace := 3
  ch1_envelope_sweep_counter := 0
  ch1_envelope_sweep_direction_increase := -1
  ch1_period_counter := 0x7ff
  ch1_duty_counter := 0
  ch1_volume := 0xf
  nr21 := 0xbf
  nr22 := 0x00
  nr23 := 0xff
  nr24 := 0xbf
  ch2_length_timer := 0x1f
  ch2_envelope_sweep_pace := 3
  ch2_envelope_sweep_counter := 0
  ch2_envelope_sweep_direction_increase := -1
  ch2_period_counter := 0x7ff
  ch2_duty_counter := 0
  ch2_volume := 0xf
  nr30 := 0x7f
  nr31 := 0xff
  nr32 := 0x9f
  nr33 := 0xff
  nr34 := 0xbf
  ch3_length_timer := 0xff
  ch3_period_counter := 0x7ff
  ch3_sample_counter := 0
  nr41 := 0xff
  nr42 := 0x00
  nr43 := 0x00
  nr44 := 0xbf
  ch4_length_timer := 0x1f
  ch4_envelope_sweep_pace := 0
  ch4_envelope_sweep_counter := 0
  ch4_envelope_sweep_direction_increase := -1
  ch4_tick_counter := 0
  ch4_lsfr := 0
  ch4_volume := 0
  nr50 := 0x77
  nr51 := 0xf3
  nr52 := 0xf1
  wave_ram := fun _ => 0

/-- Apu::mem_read (gameboy/apu.rs, lines 521-547).  `none` marks the
`panic!("cannot read ...")` arms for the write-only registers NR13, NR23,
NR31, NR33, NR41 and the `unreachable!()` wildcard arm (hit by the
unmapped slots 0xFF15, 0xFF1F and 0xFF27-0xFF2F of the APU range). -/
def Apu.mem_read (a : Apu) (addr : Nat) : Option Nat :=
  if addr = 0xff10 then some a.nr10
  else if addr = 0xff11 then some (a.nr11 &&& 0b11000000)
  else if addr = 0xff12 then some a.nr12
  else if addr = 0xff13 then none
  else if addr = 0xff14 then some (a.nr14 &&& (1 <<< 6))
  else if addr = 0xff16 then some (a.nr21 &&& 0b11000000)
  else if addr = 0xff17 then some a.nr22
  else if addr = 0xff18 then none
  else if addr = 0xff19 then some (a.nr24 &&& (1 <<< 6))
  else if addr = 0xff1a then some a.nr30
  else if addr = 0xff1b then none
  else if addr = 0xff1c then some a.nr32
  else if addr = 0xff1d then none
  else if addr = 0xff1e then some (a.nr34 &&& (1 <<< 6))
  else if addr = 0xff20 then none
  else if addr = 0xff21 then some a.nr42
  else if addr = 0xff22 then some a.nr43
  else if addr = 0xff23 then some (a.nr44 &&& (1 <<< 6))
  else if addr = 0xff24 then some a.nr50
  else if addr = 0xff25 then some a.nr51
  else if addr = 0xff26 then some a.nr52
  else if 0xff30 ≤ addr ∧ addr ≤ 0xff3f then some (a.wave_ram (addr - 0xff30))
  else none

/-- Apu::mem_write (gameboy/apu.rs, lines 549-642), including the channel
trigger logic of the NRx4 writes.  `none` marks the `unreachable!()`
wildcard arm (unmapped slots of the APU address range). -/
def Apu.mem_write (a : Apu) (addr value : Nat) : Option Apu :=
  if addr = 0xff10 then some { a with nr10 := value }
  else if addr = 0xff11 then
    let nr11 := (value &&& 0b11000000) &&& (63 - (value &&& 0b00111111))
    some { a with nr11 := nr11, ch1_length_timer := nr11 &&& 0b00111111 }
  else if addr = 0xff12 then some { a with nr12 := value }
  else if addr = 0xff13 then some { a with nr13 := value }
  else if addr = 0xff14 then
    let a := { a with nr14 := value }
    let ch1_dac_enable := a.nr12 &&& 0xf8 ≠ 0
    if value &&& (1 <<< 7) ≠ 0 ∧ ch1_dac_enable then
      some { a with
        ch1_length_timer := a.nr11 &&& 0b00111111
        ch1_freq_sweep_pace := (a.nr10 &&& 0b01110000) >>> 4
        ch1_freq_sweep_addition := a.nr10 &&& 0b00001000 == 0
        ch1_freq_sweep_slope := a.nr10 &&& 0b00000111
        ch1_freq_sweep_counter := 0
        ch1_envelope_sweep_direction_increase :=
          if a.nr12 &&& 0b00001000 == 0 then -1 else 1
        ch1_envelope_sweep_pace := a.nr12 &&& 0b00000011
        ch1_envelope_sweep_counter := 0
        ch1_duty_counter := 0
        ch1_volume := a.nr12 >>> 4
        nr52 := flagInsert a.nr52 0x01 }
    else
      some a
  else if addr = 0xff16 then
    let nr21 := (value &&& 0b11000000) &&& (63 - (value &&& 0b00111111))
    some { a with nr21 := nr21, ch2_length_timer := nr21 &&& 0b00111111 }
  else if addr = 0xff17 then some { a with nr22 := value }
  else if addr = 0xff18 then some { a with nr23 := value }
  else if addr = 0xff19 then
    let a := { a with nr24 := value }
    let ch2_dac_enable := a.nr22 &&& 0xf8 ≠ 0
    if value &&& (1 <<< 7) ≠ 0 ∧ ch2_dac_enable then
      some { a with
        ch2_length_timer := a.nr21 &&& 0b00111111
        ch2_envelope_sweep_direction_increase :=
          if a.nr22 &&& 0b00001000 == 0 then -1 else 1
        ch2_envelope_sweep_pace := a.nr22 &&& 0b00000011
        ch2_envelope_sweep_counter := 0
        ch2_duty_counter := 0
        ch2_volume := a.nr22 >>> 4
        nr52 := flagInsert a.nr52 0x02 }
    else
      some a
  else if addr = 0xff1a then some { a with nr30 := value &&& (1 <<< 7) }
  else if addr = 0xff1b then some { a with nr31 := 255 - value % 256 }
  else if addr = 0xff1c then some { a with nr32 := value }
  else if addr = 0xff1d then some { a with nr33 := value }
  else if addr = 0xff1e then
    let a := { a with nr34 := value }
    let ch3_dac_enable := a.nr30 &&& (1 <<< 7) ≠ 0
    if value &&& (1 <<< 7) ≠ 0 ∧ ch3_dac_enable then
      some { a with
        ch3_length_timer := a.nr31
        ch3_period_counter := 0
        ch3_sample_counter := 0
        nr52 := flagInsert a.nr52 0x04 }
    else
      some a
  else if addr = 0xff20 then
    let nr41 := 63 - (value &&& 0b00111111)
    some { a with nr41 := nr41, ch4_length_timer := nr41 &&& 0b00111111 }
  else if addr = 0xff21 then some { a with nr42 := value }
  else if addr = 0xff22 then some { a with nr43 := value }
  else if addr = 0xff23 then
    let a := { a with nr44 := value }
    let ch4_dac_enable := a.nr42 &&& 0xf8 ≠ 0
    if value &&& (1 <<< 7) ≠ 0 ∧ ch4_dac_enable then
      some { a with
        ch4_length_timer := a.nr41 &&& 0b00111111
        ch4_envelope_sweep_direction_increase :=
          if a.nr42 &&& 0b00001000 == 0 then -1 else 1
        ch4_envelope_sweep_pace := a.nr42 &&& 0b00000011
        ch4_envelope_sweep_counter := 0
        ch4_tick_counter := 0
        ch4_lsfr := 0
        ch4_volume := a.nr42 >>> 4
        nr52 := flagInsert a.nr52 0x08 }
    else
      some a
  else if addr = 0xff24 then some { a with nr50 := value }
  else if addr = 0xff25 then some { a with nr51 := value }
  else if addr = 0xff26 then some { a with nr52 := value &&& (1 <<< 7) }
  else if 0xff30 ≤ addr ∧ addr ≤ 0xff3f then
    some { a with wave_ram := upd a.wave_ram (addr - 0xff30) value }
  else none

/-- LCDC bit LCD_PPU_ENABLE.  The `LCDControl` bitflags type used by
src/src/ppu.rs is declared in a register-file revision missing from the
sources.  Modelled from the spec: LCDC bit 7 is the LCD/PPU enable. -/
def LCD_PPU_ENABLE : Nat := 1 <<< 7

/-- Modelled from the spec: LCDC bit 6 selects the window tile map area. -/
def WINDOW_TILEMAP_AREA : Nat := 1 <<< 6

/-- Modelled from the spec: LCDC bit 5 is the window enable. -/
def WINDOW_ENABLE : Nat := 1 <<< 5

/-- Modelled from the spec: LCDC bit 4 selects the BG/window tile data
addressing mode. -/
def BG_TILEDATA_AREA : Nat := 1 <<< 4

/-- Modelled from the spec: LCDC bit 3 selects the BG tile map area. -/
def BG_TILEMAP_AREA : Nat := 1 <<< 3

/-- Modelled from the spec: LCDC bit 2 selects 8x16 sprites. -/
def OBJ_SIZE : Nat := 1 <<< 2

/-- Modelled from the spec: LCDC bit 1 is the sprite enable. -/
def OBJ_ENABLE : Nat := 1 <<< 1

/-- Modelled from the spec: LCDC bit 0 is the BG/window enable. -/
def BG_WINDOW_ENABLE : Nat := 1 <<< 0

/-- Video memory of ppu.rs (struct Vram): 8 KiB VRAM plus 160 bytes OAM. -/
structure Vram where
  vram : Nat → Nat
  oam : Nat → Nat

/-- Vram::new() in ppu.rs. -/
def Vram.new : Vram where
  vram := fun _ => 0
  oam := fun _ => 0

/-- Vram::mem_read (ppu.rs).  The source's wildcard arm is
`unreachable!()`; every read issued by the embedded PPU code stays inside
the two mapped ranges, so the out-of-range result 0 is never observable. -/
def Vram.mem_read (v : Vram) (addr : Nat) : Nat :=
  if 0x8000 ≤ addr ∧ addr ≤ 0x9fff then v.vram (addr - 0x8000)
  else if 0xfe00 ≤ addr ∧ addr ≤ 0xfe9f then v.oam (addr - 0xfe00)
  else 0

/-- Vram::mem_write (ppu.rs); out-of-range writes (unreachable in the
source) are dropped. -/
def Vram.mem_write (v : Vram) (addr value : Nat) : Vram :=
  if 0x8000 ≤ addr ∧ addr ≤ 0x9fff then
    { v with vram := upd v.vram (addr - 0x8000) value }
  else if 0xfe00 ≤ addr ∧ addr ≤ 0xfe9f then
    { v with oam := upd v.oam (addr - 0xfe00) value }
  else v

/-- Entry of the object FIFO (struct SpritePixel in ppu.rs); `x` is an
`isize` in the source and may be negative for sprites at the left edge. -/
structure SpritePixel where
  x : Int
  color : Nat
  palette : Nat
  bg_over_obj : Bool
deriving DecidableEq

/-- Selected-sprite entry (struct Oam in ppu.rs). -/
structure Oam where
  y : Nat
  x : Nat
  tile_index : Nat
  attributes : Nat
  oam_index : Nat
deriving DecidableEq

/-- Pixel fetcher step (enum PixelFetcherState in ppu.rs). -/
inductive PixelFetcherState where
  | Sleep : PixelFetcherState
  | GetTileId : PixelFetcherState
  | GetTileRowLow (tile_index : Nat) : PixelFetcherState
  | GetTileRowHigh (tile_address : Nat) (tile_byte_lo : Nat) : PixelFetcherState
  | PushPixels (tile_byte_lo : Nat) (tile_byte_hi : Nat) : PixelFetcherState
deriving DecidableEq

/-- Pixel fetcher mode (enum PixelFetcherMode in ppu.rs). -/
inductive PixelFetcherMode where
  | Background (tile_address : Nat) : PixelFetcherMode
  | Window (tile_address : Nat) : PixelFetcherMode
  | Object (x y attributes tile_index : Nat) : PixelFetcherMode
deriving DecidableEq

/-- Pixel fetcher (struct PixelFetcher in ppu.rs); the FIFOs are lists,
front at the head. -/
structure PixelFetcher where
  dot_counter : Nat
  state : PixelFetcherState
  mode : PixelFetcherMode
  bg_fifo : List Nat
  obj_fifo : List SpritePixel

/-- PixelFetcher::new() in ppu.rs. -/
def PixelFetcher.new : PixelFetcher where
  dot_counter := 0
  state := PixelFetcherState.Sleep
  mode := PixelFetcherMode.Background 0x9800
  bg_fifo := []
  obj_fifo := []

/-- Object-fetch padding loop of PushPixels (ppu.rs lines 179-186): fill
the object FIFO with transparent lowest-priority pixels up to 8 entries. -/
def padObjFifo (fifo : List SpritePixel) (x obp0 : Nat) : List SpritePixel :=
  if h : fifo.length < 8 then
    padObjFifo
      (fifo ++ [{ x := (x : Int) - 8 + fifo.length, color := 0,
                  bg_over_obj := false, palette := obp0 }]) x obp0
  else fifo
termination_by 8 - fifo.length
decreasing_by simp; omega

/-- Row of 8 sprite pixels built by PushPixels (ppu.rs lines 188-216),
honouring horizontal flip. -/
def spriteRow (x attributes tile_byte_lo tile_byte_hi obp0 obp1 : Nat) :
    List SpritePixel :=
  (List.range 8).map fun i =>
    let bit := if attributes &&& (1 <<< 5) ≠ 0 then i else 7 - i
    let pixel := (((tile_byte_hi >>> bit) &&& 1) <<< 1) |||
      ((tile_byte_lo >>> bit) &&& 1)
    { x := (x : Int) - 8 + i, color := pixel,
      bg_over_obj := attributes &&& (1 <<< 7) ≠ 0,
      palette := if attributes &&& (1 <<< 4) == 0 then obp0 else obp1 }

/-- Merge loop of PushPixels (ppu.rs lines 218-236): starting at the FIFO
slot whose x matches the row's first pixel, overwrite transparent slots
with the incoming pixels, walking indices up to 7.  In the source the
FIFO has just been padded to 8 entries, so the `None` arm is dead. -/
def mergeObjPixels (fifo : List SpritePixel) (pixels : List SpritePixel)
    (index : Nat) : List SpritePixel :=
  if index < 8 then
    match fifo.get? index with
    | some s =>
        if s.color = 0 then
          match pixels with
          | p :: rest => mergeObjPixels (fifo.set index p) rest (index + 1)
          | [] => fifo
        else mergeObjPixels fifo pixels (index + 1)
    | none =>
        match pixels with
        | p :: rest => mergeObjPixels (fifo.set index p) rest (index + 1)
        | [] => fifo
  else fifo
termination_by 8 - index
decreasing_by all_goals simp; omega

/-- PixelFetcher::tick (ppu.rs lines 105-250). -/
def PixelFetcher.tick (pf : PixelFetcher) (vram : Vram) (r : IoRegisters) :
    PixelFetcher :=
  let pf := { pf with dot_counter := pf.dot_counter + 1 }
  match pf.state with
  | PixelFetcherState.Sleep => pf
  | PixelFetcherState.GetTileId =>
      if pf.dot_counter % 2 = 1 then pf
      else
        let tile_index :=
          match pf.mode with
          | PixelFetcherMode.Background tile_address => vram.mem_read tile_address
          | PixelFetcherMode.Window tile_address => vram.mem_read tile_address
          | PixelFetcherMode.Object _ _ _ tile_index => tile_index
        { pf with state := PixelFetcherState.GetTileRowLow tile_index }
  | PixelFetcherState.GetTileRowLow tile_index =>
      if pf.dot_counter % 2 = 1 then pf
      else
        let bit12 : Nat :=
          if !(flagContains r.lcdc BG_TILEDATA_AREA ||
               decide (tile_index &&& (1 <<< 7) ≠ 0)) then 1 else 0
        let tile_address :=
          match pf.mode with
          | PixelFetcherMode.Background _ =>
              0x8000 ||| (bit12 <<< 12) ||| (tile_index <<< 4) |||
                (((r.ly + r.scy) % 8) <<< 1)
          | PixelFetcherMode.Window _ =>
              0x8000 ||| (bit12 <<< 12) ||| (tile_index <<< 4) |||
                ((r.window_ly % 8) <<< 1)
          | PixelFetcherMode.Object _ y attributes _ =>
              let row_offset := ((r.ly + 256 - y % 8) % 256) % 8
              let row_offset :=
                if attributes &&& (1 <<< 6) ≠ 0 then 7 - row_offset else row_offset
              0x8000 ||| (tile_index <<< 4) ||| (row_offset <<< 1)
        let tile_byte_lo := vram.mem_read tile_address
        { pf with state := PixelFetcherState.GetTileRowHigh tile_address tile_byte_lo }
  | PixelFetcherState.GetTileRowHigh tile_address tile_byte_lo =>
      if pf.dot_counter % 2 = 1 then pf
      else
        let tile_byte_hi := vram.mem_read (tile_address + 1)
        { pf with state := PixelFetcherState.PushPixels tile_byte_lo tile_byte_hi }
  | PixelFetcherState.PushPixels tile_byte_lo tile_byte_hi =>
      match pf.mode with
      | PixelFetcherMode.Object x _ attributes _ =>
          let fifo := padObjFifo pf.obj_fifo x r.obp0
          let pixels := spriteRow x attributes tile_byte_lo tile_byte_hi r.obp0 r.obp1
          let fifo :=
            match fifo.findIdx? (fun s => s.x == (x : Int) - 8) with
            | some index => mergeObjPixels fifo pixels index
            | none => fifo
          { pf with obj_fifo := fifo, state := PixelFetcherState.Sleep }
      | _ =>
          if pf.bg_fifo.isEmpty then
            let row := (List.range 8).map fun i =>
              (((tile_byte_hi >>> (7 - i)) &&& 1) <<< 1) |||
                ((tile_byte_lo >>> (7 - i)) &&& 1)
            { pf with bg_fifo := pf.bg_fifo ++ row, state := PixelFetcherState.Sleep }
          else pf

/-- PixelFetcher::fetch_bg_tile (ppu.rs lines 252-258). -/
def PixelFetcher.fetch_bg_tile (pf : PixelFetcher) (tile_map_addr : Nat) :
    PixelFetcher :=
  { pf with bg_fifo := [], dot_counter := 0,
            state := PixelFetcherState.GetTileId,
            mode := PixelFetcherMode.Background tile_map_addr }

/-- PixelFetcher::fetch_window_tile (ppu.rs lines 260-266). -/
def PixelFetcher.fetch_window_tile (pf : PixelFetcher) (tile_map_addr : Nat) :
    PixelFetcher :=
  { pf with bg_fifo := [], dot_counter := 0,
            state := PixelFetcherState.GetTileId,
            mode := PixelFetcherMode.Window tile_map_addr }

/-- PixelFetcher::fetch_obj_tile (ppu.rs lines 268-277). -/
def PixelFetcher.fetch_obj_tile (pf : PixelFetcher) (oam : Oam) :
    PixelFetcher :=
  { pf with dot_counter := 0,
            state := PixelFetcherState.GetTileId,
            mode := PixelFetcherMode.Object oam.x oam.y oam.attributes oam.tile_index }

/-- Pixel processing unit (struct Ppu in ppu.rs).  The framebuffer is a
function from pixel index to 2-bit colour. -/
structure Ppu where
  dot_counter : Nat
  vram : Vram
  scanline_x : Nat
  sprites : List Oam
  screen : Nat → Nat
  pixel_fetcher : PixelFetcher
  delay : Nat

/-- Ppu::new() in ppu.rs. -/
def Ppu.new : Ppu where
  dot_counter := 0
  vram := Vram.new
  scanline_x := 0
  sprites := []
  screen := fun _ => 0
  pixel_fetcher := PixelFetcher.new
  delay := 0

/-- Ppu::fetch_sprites (ppu.rs lines 592-615): one OAM entry is examined
every second dot; the y-window test `sprite_y <= ly + 16 &&
ly + 16 - sprite_height < sprite_y` gates selection; the selected-sprite
buffer is capped at its capacity of 10.  The source performs the test in
`u8` arithmetic; it is embedded in `Nat` (identical for ly <= 239, and on
`ly + 16 - sprite_height` for sprite heights of at most 16). -/
def Ppu.fetch_sprites (p : Ppu) (r : IoRegisters) (sprite_height line_dot : Nat) :
    Ppu :=
  if line_dot % 2 = 0 then p
  else if p.sprites.length = 10 then p
  else
    let ly := r.ly
    let oam_addr := 0xfe00 + (line_dot / 2) * 4
    let sprite_y := p.vram.mem_read oam_addr
    if sprite_y ≤ ly + 16 ∧ ly + 16 - sprite_height < sprite_y then
      { p with sprites := p.sprites ++
          [{ oam_index := (line_dot % 256) / 2,
             y := sprite_y,
             x := p.vram.mem_read (oam_addr + 1),
             tile_index := p.vram.mem_read (oam_addr + 2),
             attributes := p.vram.mem_read (oam_addr + 3) }] }
    else p

/-- Sprite order used by the `sort_by` call at the end of OAM scan
(ppu.rs lines 430-433): x ascending, ties broken by OAM index. -/
def spriteLe (a b : Oam) : Prop :=
  a.x < b.x ∨ (a.x = b.x ∧ a.oam_index ≤ b.oam_index)

instance : DecidableRel spriteLe := fun a b => by
  unfold spriteLe; infer_instance

/-- Stable sort of the selected-sprite buffer; Rust's `sort_by` is a
stable sort, so it computes the same list as insertion sort under the
total order `spriteLe`. -/
def sortSprites (l : List Oam) : List Oam :=
  List.insertionSort spriteLe l

/-- Ppu::fetch_bg_pixels (ppu.rs lines 616-643). -/
def Ppu.fetch_bg_pixels (p : Ppu) (r : IoRegisters) (is_window_scanline : Bool) :
    Ppu :=
  let is_window_tile := is_window_scanline ∧ p.scanline_x + 7 ≥ r.wx ∧
    p.scanline_x + 7 ≤ min (r.wx + 159) 255
  if is_window_tile then
    let bit10 : Nat := if flagContains r.lcdc WINDOW_TILEMAP_AREA then 1 else 0
    let offset_y := r.window_ly / 8
    let offset_x := ((p.scanline_x + 7 + 256 - r.wx % 256) % 256) / 8
    let tile_map_addr := 0x9800 ||| (bit10 <<< 10) ||| (offset_y <<< 5) ||| offset_x
    { p with pixel_fetcher := p.pixel_fetcher.fetch_window_tile tile_map_addr }
  else
    let bit10 : Nat := if flagContains r.lcdc BG_TILEMAP_AREA then 1 else 0
    let offset_y := ((r.ly + r.scy) % 256) / 8
    let offset_x := ((p.scanline_x + r.scx) % 256) / 8
    let tile_map_addr := 0x9800 ||| (bit10 <<< 10) ||| (offset_y <<< 5) ||| offset_x
    { p with pixel_fetcher := p.pixel_fetcher.fetch_bg_tile tile_map_addr }

/-- Ppu::fetch_obj_pixels (ppu.rs lines 645-670). -/
def Ppu.fetch_obj_pixels (p : Ppu) (r : IoRegisters) : Ppu :=
  if p.pixel_fetcher.bg_fifo.isEmpty ∨ p.pixel_fetcher.state ≠ PixelFetcherState.Sleep then
    p
  else
    let sprite_16 := flagContains r.lcdc OBJ_SIZE
    match p.sprites.findIdx? (fun s => p.scanline_x + 8 ≥ s.x ∧ p.scanline_x < s.x) with
    | none => p
    | some index =>
        match p.sprites.get? index with
        | none => p
        | some sprite =>
            let sprites := p.sprites.take index ++ p.sprites.drop (index + 1)
            let flip_sprite_v := sprite.attributes &&& (1 <<< 6) ≠ 0
            let tile_index :=
              if sprite_16 then
                if flip_sprite_v = decide (r.ly + 16 - sprite.y < 8) then
                  sprite.tile_index ||| 0x01
                else
                  sprite.tile_index &&& 0xfe
              else sprite.tile_index
            let sprite := { sprite with tile_index := tile_index }
            { p with sprites := sprites,
                     pixel_fetcher := p.pixel_fetcher.fetch_obj_tile sprite,
                     delay := p.delay + 7 }

/-- Mixing pop loop of Ppu::tick (ppu.rs lines 523-541): pop object-FIFO
entries, skipping pixels left of the current x, and stop at the first
remaining entry.  Returns the entry reached (if any) and the rest of the
FIFO. -/
def popObjPixel (fifo : List SpritePixel) (x : Nat) :
    Option SpritePixel × List SpritePixel :=
  match fifo with
  | [] => (none, [])
  | sp :: rest =>
      if sp.x < (x : Int) then popObjPixel rest x
      else (some sp, rest)

/-- Mode-3 (pixel transfer) body of Ppu::tick (ppu.rs lines 436-568).
`Sum.inl` is an early `return false` of the source (reached before the
dot-counter increment at the bottom of tick); `Sum.inr` falls through to
the common tail carrying the possibly-updated mode. -/
def Ppu.mode3 (p : Ppu) (r : IoRegisters)
    (lcd_enable bg_enable is_window_scanline : Bool) :
    Sum (Ppu × IoRegisters) (Ppu × IoRegisters × Nat) :=
  let p := { p with pixel_fetcher := p.pixel_fetcher.tick p.vram r }
  if p.delay > 0 then
    Sum.inl ({ p with delay := p.delay - 1 }, r)
  else if p.pixel_fetcher.bg_fifo.isEmpty ∧
      p.pixel_fetcher.state = PixelFetcherState.Sleep then
    Sum.inl (p.fetch_bg_pixels r is_window_scanline, r)
  else
    let sprites_enable := flagContains r.lcdc OBJ_ENABLE
    if sprites_enable ∧
        p.sprites.any (fun s => p.scanline_x + 8 ≥ s.x ∧ p.scanline_x < s.x) then
      Sum.inl (p.fetch_obj_pixels r, r)
    else
      let bg_pixel := p.pixel_fetcher.bg_fifo.head?
      let p := { p with pixel_fetcher :=
        { p.pixel_fetcher with bg_fifo := p.pixel_fetcher.bg_fifo.tail } }
      let skip := r.scx % 8
      if p.scanline_x = 0 ∧ skip > 0 ∧
          p.pixel_fetcher.bg_fifo.length ≥ 8 - skip then
        Sum.inl (p, r)
      else
        match bg_pixel with
        | none => Sum.inl (p, r)
        | some bg_pixel =>
            let pixel := 0
            let palette := r.bgp
            let pixel := if bg_enable then bg_pixel else pixel
            let popped := popObjPixel p.pixel_fetcher.obj_fifo p.scanline_x
            let p := { p with pixel_fetcher :=
              { p.pixel_fetcher with obj_fifo := popped.2 } }
            let mixed : Nat × Nat :=
              match popped.1 with
              | none => (pixel, palette)
              | some sp =>
                  if !bg_enable then (sp.color, sp.palette)
                  else if sprites_enable then
                    if (sp.bg_over_obj ∧ bg_pixel ≠ 0) ∨ sp.color = 0 then
                      (bg_pixel, palette)
                    else (sp.color, sp.palette)
                  else (pixel, palette)
            let pixel := mixed.1
            let palette := mixed.2
            if p.scanline_x < 160 ∧ r.ly < 144 then
              let color := (palette >>> (pixel * 2)) &&& 0b00000011
              let p := { p with
                screen := upd p.screen (r.ly * 160 + p.scanline_x) color,
                scanline_x := (p.scanline_x + 1) % 160 }
              if p.scanline_x = 0 then
                let r :=
                  if lcd_enable ∧ r.stat &&& (1 <<< 3) ≠ 0 then
                    { r with interrupt_flag := flagInsert r.interrupt_flag INT_LCD_STAT }
                  else r
                let r :=
                  if lcd_enable then
                    let r :=
                      if is_window_scanline then
                        { r with window_ly := (r.window_ly + 1) % 144 }
                      else r
                    { r with ly := r.ly + 1 }
                  else r
                Sum.inr (p, r, 0)
              else
                Sum.inr (p, r, 3)
            else
              Sum.inr (p, r, 3)

/-- LCD-disabled STAT strip and LYC=LY comparison at the top of
Ppu::tick (ppu.rs lines 355-376). -/
def Ppu.tick_lyc (r : IoRegisters) (lcd_enable : Bool) : IoRegisters :=
  let r := if !lcd_enable then { r with stat := r.stat &&& 0b11111000 } else r
  if r.lyc = r.ly then
    let r :=
      if lcd_enable ∧ r.stat &&& (1 <<< 2) = 0 ∧ r.stat &&& (1 <<< 6) ≠ 0 then
        { r with interrupt_flag := flagInsert r.interrupt_flag INT_LCD_STAT }
      else r
    { r with stat := r.stat ||| (1 <<< 2) }
  else
    { r with stat := r.stat &&& 0b11111011 }

/-- Per-mode dispatch of Ppu::tick (ppu.rs lines 378-568): `Sum.inl` is
an early `return false` of the source, `Sum.inr` falls through to the
common tail carrying the possibly-updated mode. -/
def Ppu.tick_step (p : Ppu) (r : IoRegisters) (lcd_enable : Bool) :
    Sum (Ppu × IoRegisters) (Ppu × IoRegisters × Nat) :=
  let mode := r.stat &&& 0b00000011
  let line_dot := p.dot_counter % 456
  let bg_enable := flagContains r.lcdc BG_WINDOW_ENABLE
  let window_enable := flagContains r.lcdc WINDOW_ENABLE ∧ r.wx < 167 ∧ r.wy < 144
  let is_window_scanline : Bool := window_enable ∧ r.ly ≥ r.wy ∧
    r.ly < (r.wy + 144) % 256
  let sprite_height : Nat := if flagContains r.lcdc OBJ_SIZE then 16 else 8
  if mode = 0 then
    if line_dot = 0 then
      if r.ly = 144 then
        let r :=
          if lcd_enable then
            let r := { r with interrupt_flag := flagInsert r.interrupt_flag INT_VBLANK }
            if r.stat &&& (1 <<< 4) ≠ 0 ∨ r.stat &&& (1 <<< 5) ≠ 0 then
              { r with interrupt_flag := flagInsert r.interrupt_flag INT_LCD_STAT }
            else r
          else r
        Sum.inr (p, r, 1)
      else
        let p := { p with sprites := [] }
        let r :=
          if lcd_enable ∧ r.stat &&& (1 <<< 5) ≠ 0 then
            { r with interrupt_flag := flagInsert r.interrupt_flag INT_LCD_STAT }
          else r
        Sum.inr (p, r, 2)
    else
      Sum.inr (p, r, mode)
  else if mode = 1 then
    let pm : Ppu × Nat :=
      if p.dot_counter = 0 then ({ p with sprites := [] }, 2) else (p, mode)
    let r := { r with ly := (p.dot_counter / 456) % 256 }
    Sum.inr (pm.1, r, pm.2)
  else if mode = 2 then
    let p := p.fetch_sprites r sprite_height line_dot
    if line_dot = 80 then
      let p := { p with
        pixel_fetcher := { p.pixel_fetcher with bg_fifo := [], obj_fifo := [] },
        sprites := sortSprites p.sprites }
      Sum.inr (p, r, 3)
    else
      Sum.inr (p, r, mode)
  else
    p.mode3 r lcd_enable bg_enable is_window_scanline

/-- Dot-counter advance, 70224-dot wrap and STAT mode write-back at the
bottom of Ppu::tick (ppu.rs lines 570-589). -/
def Ppu.tick_advance (lcd_enable : Bool) (mode : Nat) (p : Ppu) (r : IoRegisters) :
    Ppu × IoRegisters × Bool :=
  let p := if lcd_enable then { p with dot_counter := p.dot_counter + 1 } else p
  let wrapped := p.dot_counter = 70224
  let p := if wrapped then { p with dot_counter := 0 } else p
  let r :=
    if wrapped then
      { r with ly := 0, window_ly := 0,
               interrupt_flag := flagRemove r.interrupt_flag (INT_VBLANK ||| INT_LCD_STAT) }
    else r
  let r := { r with stat := (r.stat &&& 0b11111100) ||| (mode &&& 0b00000011) }
  (p, r, wrapped)

/-- Ppu::tick (ppu.rs lines 352-590), factored into the register prelude
(tick_lyc), the per-mode dispatch (tick_step) and the common dot-counter
advance tail (tick_advance); the composition follows the source's body
line for line.  Returns the new PPU state, the new register file and the
frame-ready flag. -/
def Ppu.tick (p : Ppu) (r : IoRegisters) : Ppu × IoRegisters × Bool :=
  let lcd_enable := flagContains r.lcdc LCD_PPU_ENABLE
  let r := Ppu.tick_lyc r lcd_enable
  match Ppu.tick_step p r lcd_enable with
  | Sum.inl (p, r) => (p, r, false)
  | Sum.inr (p, r, mode) => Ppu.tick_advance lcd_enable mode p r

/-- Banking mode (enum BankingMode, gameboy/cartridge.rs and
gameboy/bus.rs). -/
inductive BankingMode where
  | Simple : BankingMode
  | AdvancedRomOrRamBanking : BankingMode
deriving DecidableEq

/-- Memory bus (struct Bus, gameboy/bus.rs).  The cartridge image is a
byte function together with its length (`Vec<u8>` in the source); ROM and
RAM banks are lists of 16 KiB / 8 KiB byte functions. -/
structure Bus where
  ppu : Ppu
  apu : Apu
  io_registers : IoRegisters
  program : Nat → Nat
  program_len : Nat
  rom_current_bank : Nat
  rom_banks : List (Nat → Nat)
  banking_mode : BankingMode
  cartridge_ram_size_type : Nat
  ram_enable : Bool
  ram_current_bank : Nat
  ram_banks : List (Nat → Nat)
  wram : Nat → Nat
  hram : Nat → Nat

/-- Bus::new() in gameboy/bus.rs: no cartridge loaded, memories zeroed. -/
def Bus.new : Bus where
  ppu := Ppu.new
  apu := Apu.new
  io_registers := IoRegisters.new
  program := fun _ => 0
  program_len := 0
  rom_current_bank := 1
  rom_banks := []
  banking_mode := BankingMode.Simple
  cartridge_ram_size_type := 0
  ram_enable := false
  ram_current_bank := 0
  ram_banks := []
  wram := fun _ => 0
  hram := fun _ => 0

/-- Bus::mem_read (gameboy/bus.rs lines 122-155).  `none` marks panics:
a ROM-bank index out of bounds, or a panicking APU / IO-register read.
Reads of 0xFE00-0xFE9F return 0 and reads of 0xFEA0-0xFEFF return 0xFF,
exactly as in the source. -/
def Bus.mem_read (b : Bus) (addr : Nat) : Option Nat :=
  if addr ≤ 0x3fff then
    (b.rom_banks.get? 0).map (fun bank => bank addr)
  else if addr ≤ 0x7fff then
    (b.rom_banks.get? b.rom_current_bank).map (fun bank => bank (addr - 0x4000))
  else if addr ≤ 0x9fff then
    some (b.ppu.vram.mem_read addr)
  else if addr ≤ 0xbfff then
    if !b.ram_enable then some 0xff
    else
      match b.banking_mode with
      | BankingMode.Simple =>
          (b.ram_banks.get? 0).map (fun bank => bank (addr - 0xa000))
      | BankingMode.AdvancedRomOrRamBanking =>
          (b.ram_banks.get? b.ram_current_bank).map (fun bank => bank (addr - 0xa000))
  else if addr ≤ 0xdfff then some (b.wram (addr - 0xc000))
  else if addr ≤ 0xfdff then some (b.wram (addr - 0xe000))
  else if addr ≤ 0xfe9f then some 0
  else if addr ≤ 0xfeff then some 0xff
  else if 0xff10 ≤ addr ∧ addr ≤ 0xff3f then b.apu.mem_read addr
  else if addr ≤ 0xff0f ∨ (0xff40 ≤ addr ∧ addr ≤ 0xff7f) then
    b.io_registers.mem_read addr
  else if addr ≤ 0xfffe then some (b.hram (addr - 0xff80))
  else if addr = 0xffff then b.io_registers.mem_read addr
  else none

/-- Bus::mem_write (gameboy/bus.rs lines 157-234).  `none` marks panics:
the 0x2000-0x3FFF arm indexes the raw image for the ROM-size byte and its
bank-mask match has an `unreachable!()` wildcard for size codes above 4; a
RAM write can index a missing RAM bank; an APU write can hit the
`unreachable!()` wildcard. -/
def Bus.mem_write (b : Bus) (addr value : Nat) : Option Bus :=
  if addr ≤ 0x1fff then
    some { b with ram_enable := value &&& 0x0f == 0x0a }
  else if addr ≤ 0x3fff then
    if b.program_len ≤ 0x0148 then none
    else
      let rom_size_type := b.program 0x0148
      let mask? : Option Nat :=
        if rom_size_type = 0x00 then some 0b00000001
        else if rom_size_type = 0x01 then some 0b00000011
        else if rom_size_type = 0x02 then some 0b00000111
        else if rom_size_type = 0x03 then some 0b00001111
        else if rom_size_type = 0x04 then some 0b00011111
        else none
      match mask? with
      | none => none
      | some bank_count_mask =>
          let bank := value &&& bank_count_mask
          let allow_bank0_mirroring := bank &&& 0b00010000 ≠ 0
          let bank :=
            if bank = 0x00 then
              if allow_bank0_mirroring then 0x00 else 0x01
            else bank
          some { b with rom_current_bank := bank }
  else if addr ≤ 0x5fff then
    if b.banking_mode = BankingMode.AdvancedRomOrRamBanking then
      let value := value &&& 0b00000011
      if b.cartridge_ram_size_type = 3 then
        some { b with ram_current_bank := value }
      else
        some b
    else
      some b
  else if addr ≤ 0x7fff then
    let value := value &&& 0b00000001
    some { b with banking_mode :=
      if value = 0 then BankingMode.Simple else BankingMode.AdvancedRomOrRamBanking }
  else if addr ≤ 0x9fff then
    some { b with ppu := { b.ppu with vram := b.ppu.vram.mem_write addr value } }
  else if addr ≤ 0xbfff then
    if !b.ram_enable then some b
    else
      let bank :=
        match b.banking_mode with
        | BankingMode.Simple => 0
        | BankingMode.AdvancedRomOrRamBanking => b.ram_current_bank
      match b.ram_banks.get? bank with
      | none => none
      | some bankFn =>
          some { b with ram_banks :=
            b.ram_banks.set bank (upd bankFn (addr - 0xa000) value) }
  else if addr ≤ 0xdfff then some { b with wram := upd b.wram (addr - 0xc000) value }
  else if addr ≤ 0xfdff then some { b with wram := upd b.wram (addr - 0xe000) value }
  else if addr ≤ 0xfe9f then
    some { b with ppu := { b.ppu with vram := b.ppu.vram.mem_write addr value } }
  else if addr ≤ 0xfeff then some b
  else if 0xff10 ≤ addr ∧ addr ≤ 0xff3f then
    (b.apu.mem_write addr value).map (fun a => { b with apu := a })
  else if addr ≤ 0xff0f ∨ (0xff40 ≤ addr ∧ addr ≤ 0xff7f) then
    some { b with io_registers := b.io_registers.mem_write addr value }
  else if addr ≤ 0xfffe then some { b with hram := upd b.hram (addr - 0xff80) value }
  else if addr = 0xffff then
    some { b with io_registers := b.io_registers.mem_write addr value }
  else none

/-- Mapper kind (enum Mapper, gameboy/cartridge.rs). -/
inductive Mapper where
  | None : Mapper
  | MBC1 : Mapper
deriving DecidableEq

/-- Cartridge in gameboy/cartridge.rs (struct Cartridge). -/
structure Cartridge where
  program : Nat → Nat
  program_len : Nat
  mapper : Mapper
  banking_mode : BankingMode
  cartridge_rom_size_type : Nat
  rom_current_bank : Nat
  rom_secondary_bank_register : Nat
  rom_banks : List (Nat → Nat)
  cartridge_ram_size_type : Nat
  ram_enable : Bool
  ram_current_bank : Nat
  ram_banks : List (Nat → Nat)

/-- cartridge_ram_size_kib (gameboy/cartridge.rs lines 28-37); `none` is
the `unreachable!()` arm for undefined RAM size codes. -/
def cartridge_ram_size_kib (ram_size_type : Nat) : Option Nat :=
  if ram_size_type = 0 then some 0
  else if ram_size_type = 2 then some 8
  else if ram_size_type = 3 then some 32
  else if ram_size_type = 4 then some 128
  else if ram_size_type = 5 then some 64
  else none

/-- Header checksum of gameboy/cartridge.rs (fn verify_checksum): the
running 8-bit value `checksum - program[i] - 1` over 0x0134..=0x014C,
compared with the byte at 0x014D. -/
def verify_checksum (program : Nat → Nat) : Bool :=
  let checksum := (List.range 25).foldl
    (fun c i => (c + 256 - (program (0x0134 + i)) % 256 + 255) % 256) 0
  checksum == program 0x014d

/-- Cartridge::load (gameboy/cartridge.rs lines 64-119).  `none` marks a
panic: an index past the end of the image (truncated image), the
`unimplemented!()` arms for the known-but-unsupported mapper types, the
`unreachable!()` wildcard for unknown type bytes, or an undefined RAM
size code.  A supported image yields the loaded cartridge. -/
def Cartridge.load (program : Nat → Nat) (program_len : Nat) : Option Cartridge :=
  if program_len ≤ 0x014d then none
  else
    let _checksum := verify_checksum program
    let cartridge_type := program 0x0147
    let mapper? : Option Mapper :=
      if cartridge_type = 0x00 ∨ cartridge_type = 0x08 ∨ cartridge_type = 0x09 then
        some Mapper.None
      else if 0x01 ≤ cartridge_type ∧ cartridge_type ≤ 0x03 then
        some Mapper.MBC1
      else
        none
    match mapper? with
    | none => none
    | some mapper =>
        let cartridge_rom_size_type := program 0x0148
        let rom_size_bytes := 32 * 1024 * (1 <<< cartridge_rom_size_type)
        let bank_count := rom_size_bytes / 0x4000
        if program_len < bank_count * 0x4000 then none
        else
          let rom_banks := (List.range bank_count).map
            (fun i => fun a => program (i * 0x4000 + a))
          let cartridge_ram_size_type := program 0x0149
          match cartridge_ram_size_kib cartridge_ram_size_type with
          | none => none
          | some kib =>
              let ram_bank_count := kib * 1024 / 0x2000
              let ram_banks := (List.range ram_bank_count).map
                (fun _ => fun _ => (0 : Nat))
              some {
                program := program
                program_len := program_len
                mapper := mapper
                banking_mode := BankingMode.Simple
                cartridge_rom_size_type := cartridge_rom_size_type
                rom_current_bank := 1
                rom_secondary_bank_register := 0
                rom_banks := rom_banks
                cartridge_ram_size_type := cartridge_ram_size_type
                ram_enable := false
                ram_current_bank := 0
                ram_banks := ram_banks }

/-- Cartridge::mem_write_mbc1 (gameboy/cartridge.rs lines 151-216).
`none` marks a panic (an out-of-range address, or a RAM write indexing a
missing bank). -/
def Cartridge.mem_write_mbc1 (c : Cartridge) (addr value : Nat) : Option Cartridge :=
  if addr ≤ 0x1fff then
    some { c with ram_enable := value &&& 0x0f == 0x0a }
  else if addr ≤ 0x3fff then
    let bank_count_mask : Nat :=
      if c.cartridge_rom_size_type = 0 then 0b00000001
      else if c.cartridge_rom_size_type = 1 then 0b00000011
      else if c.cartridge_rom_size_type = 2 then 0b00000111
      else if c.cartridge_rom_size_type = 3 then 0b00001111
      else 0b00011111
    let bank := (c.rom_secondary_bank_register <<< 5) ||| (value &&& bank_count_mask)
    let allow_bank0_mirroring := bank &&& 0b00010000 ≠ 0
    let bank :=
      if bank = 0x00 then
        if allow_bank0_mirroring then 0x00 else 0x01
      else bank
    some { c with rom_current_bank := bank }
  else if addr ≤ 0x5fff then
    if c.banking_mode = BankingMode.AdvancedRomOrRamBanking then
      let value := value &&& 0b00000011
      if c.cartridge_ram_size_type = 3 then
        some { c with ram_current_bank := value }
      else if c.cartridge_rom_size_type ≥ 5 then
        some { c with rom_secondary_bank_register := value }
      else
        some c
    else
      some c
  else if addr ≤ 0x7fff then
    let value := value &&& 0b00000001
    some { c with banking_mode :=
      if value = 0 then BankingMode.Simple else BankingMode.AdvancedRomOrRamBanking }
  else if 0xa000 ≤ addr ∧ addr ≤ 0xbfff then
    if !c.ram_enable then some c
    else
      let bank :=
        match c.banking_mode with
        | BankingMode.Simple => 0
        | BankingMode.AdvancedRomOrRamBanking => c.ram_current_bank
      match c.ram_banks.get? bank with
      | none => none
      | some bankFn =>
          some { c with ram_banks :=
            c.ram_banks.set bank (upd bankFn (addr - 0xa000) value) }
  else none

/-- CPU register file (struct CpuRegisters, gameboy/cpu_registers.rs);
the flag register `f` holds the raw CpuFlags bit pattern. -/
structure CpuRegisters where
  a : Nat
  f : Nat
  b : Nat
  c : Nat
  d : Nat
  e : Nat
  h : Nat
  l : Nat
  sp : Nat
  pc : Nat

/-- Power-up register values (Default for CpuRegisters). -/
def CpuRegisters.default : CpuRegisters where
  a := 0x01
  f := FLAG_ZERO ||| FLAG_HALF_CARRY ||| FLAG_CARRY
  b := 0x00
  c := 0x13
  d := 0x00
  e := 0xd8
  h := 0x01
  l := 0x4d
  sp := 0xfffe
  pc := 0x0100

/-- CpuRegisters::bc(). -/
def CpuRegisters.bc (r : CpuRegisters) : Nat := (r.b <<< 8) ||| r.c

/-- CpuRegisters::set_bc(). -/
def CpuRegisters.set_bc (r : CpuRegisters) (v : Nat) : CpuRegisters :=
  { r with b := (v >>> 8) % 256, c := v % 256 }

/-- CpuRegisters::hl(). -/
def CpuRegisters.hl (r : CpuRegisters) : Nat := (r.h <<< 8) ||| r.l

/-- CpuRegisters::set_hl(). -/
def CpuRegisters.set_hl (r : CpuRegisters) (v : Nat) : CpuRegisters :=
  { r with h := (v >>> 8) % 256, l := v % 256 }

/-- The CPU together with the bus it owns (struct Cpu in cpu.rs).  The
logger and the frame-time accumulator of the source are host-side state
with no effect on the emulated machine and are not modelled. -/
structure Machine where
  bus : Bus
  interrupts_master_enable : Bool
  registers : CpuRegisters
  halted : Bool

/-- Cpu::add (cpu.rs lines 1101-1110): 8-bit ADD; returns the updated
flag register and the result byte. -/
def cpuAdd (f rv v : Nat) : Nat × Nat :=
  let result := (rv + v) % 256
  let carry := decide (255 < rv + v)
  let f := flagSet f FLAG_ZERO (result == 0)
  let f := flagRemove f FLAG_NEGATIVE
  let f := flagSet f FLAG_HALF_CARRY
    ((((rv &&& 0x0f) + (v &&& 0x0f)) &&& 0x10) != 0)
  let f := flagSet f FLAG_CARRY carry
  (f, result)

/-- Cpu::sub (cpu.rs lines 1112-1121). -/
def cpuSub (f rv v : Nat) : Nat × Nat :=
  let result := (rv + 256 - v % 256) % 256
  let carry := decide (rv < v)
  let f := flagSet f FLAG_ZERO (result == 0)
  let f := flagInsert f FLAG_NEGATIVE
  let f := flagSet f FLAG_HALF_CARRY
    (((((rv &&& 0x0f) + 256 - (v &&& 0x0f)) % 256) &&& 0x10) != 0)
  let f := flagSet f FLAG_CARRY carry
  (f, result)

/-- Cpu::adc (cpu.rs lines 1123-1134). -/
def cpuAdc (f rv v : Nat) : Nat × Nat :=
  let c : Nat := if flagContains f FLAG_CARRY then 1 else 0
  let carry1 := decide (255 < v + c)
  let r1 := (v + c) % 256
  let carry2 := decide (255 < rv + r1)
  let result := (rv + r1) % 256
  let f := flagSet f FLAG_ZERO (result == 0)
  let f := flagRemove f FLAG_NEGATIVE
  let f := flagSet f FLAG_HALF_CARRY
    ((((rv &&& 0x0f) + (v &&& 0x0f) + c) &&& 0x10) != 0)
  let f := flagSet f FLAG_CARRY (carry1 || carry2)
  (f, result)

/-- Cpu::sbc (cpu.rs lines 1136-1147). -/
def cpuSbc (f rv v : Nat) : Nat × Nat :=
  let c : Nat := if flagContains f FLAG_CARRY then 1 else 0
  let carry1 := decide (rv < v)
  let r1 := (rv + 256 - v % 256) % 256
  let carry2 := decide (r1 < c)
  let result := (r1 + 256 - c) % 256
  let f := flagSet f FLAG_ZERO (result == 0)
  let f := flagInsert f FLAG_NEGATIVE
  let f := flagSet f FLAG_HALF_CARRY
    ((((((rv &&& 0x0f) + 256 - (v &&& 0x0f)) % 256 + 256 - c) % 256) &&& 0x10) != 0)
  let f := flagSet f FLAG_CARRY (carry1 || carry2)
  (f, result)

/-- Cpu::and (cpu.rs lines 1149-1157). -/
def cpuAnd (f rv v : Nat) : Nat × Nat :=
  let result := rv &&& v
  let f := flagSet f FLAG_ZERO (result == 0)
  let f := flagRemove f (FLAG_NEGATIVE ||| FLAG_CARRY)
  let f := flagInsert f FLAG_HALF_CARRY
  (f, result)

/-- Cpu::xor (cpu.rs lines 1159-1166). -/
def cpuXor (f rv v : Nat) : Nat × Nat :=
  let result := rv ^^^ v
  let f := flagSet f FLAG_ZERO (result == 0)
  let f := flagRemove f (FLAG_NEGATIVE ||| FLAG_HALF_CARRY ||| FLAG_CARRY)
  (f, result)

/-- Cpu::or (cpu.rs lines 1168-1175). -/
def cpuOr (f rv v : Nat) : Nat × Nat :=
  let result := rv ||| v
  let f := flagSet f FLAG_ZERO (result == 0)
  let f := flagRemove f (FLAG_NEGATIVE ||| FLAG_HALF_CARRY ||| FLAG_CARRY)
  (f, result)

/-- Cpu::cp (cpu.rs lines 1177-1184): compare, flags only. -/
def cpuCp (f rv v : Nat) : Nat :=
  (cpuSub f rv v).1

/-- Cpu::inc_r8 (cpu.rs lines 1290-1298). -/
def cpuIncR8 (f rv : Nat) : Nat × Nat :=
  let value := (rv + 1) % 256
  let f := flagSet f FLAG_ZERO (value == 0)
  let f := flagRemove f FLAG_NEGATIVE
  let f := flagSet f FLAG_HALF_CARRY (rv &&& 0x0f == 0x0f)
  (f, value)

/-- Cpu::dec_r8 (cpu.rs lines 1300-1308). -/
def cpuDecR8 (f rv : Nat) : Nat × Nat :=
  let value := (rv + 255) % 256
  let f := flagSet f FLAG_ZERO (value == 0)
  let f := flagInsert f FLAG_NEGATIVE
  let f := flagSet f FLAG_HALF_CARRY (rv &&& 0x0f == 0)
  (f, value)

/-- Cpu::read_u8 (cpu.rs lines 1443-1449): fetch the byte at PC and
post-increment PC with 16-bit wrap. -/
def Machine.read_u8 (m : Machine) : Option (Machine × Nat) :=
  let addr := m.registers.pc
  let m := { m with registers := { m.registers with pc := (m.registers.pc + 1) % 65536 } }
  (m.bus.mem_read addr).map (fun v => (m, v))

/-- Cpu::read_u16 (cpu.rs lines 1455-1457): two fetches, little endian. -/
def Machine.read_u16 (m : Machine) : Option (Machine × Nat) :=
  match m.read_u8 with
  | none => none
  | some (m, lo) =>
      match m.read_u8 with
      | none => none
      | some (m, hi) => some (m, (hi <<< 8) ||| lo)

/-- Cpu::call (cpu.rs lines 1391-1398): push PC with wrapping stack
arithmetic, then jump. -/
def Machine.call (m : Machine) (addr : Nat) : Option Machine :=
  let sp := (m.registers.sp + 65536 - 2 % 65536) % 65536
  let m := { m with registers := { m.registers with sp := sp } }
  match m.bus.mem_write sp (m.registers.pc &&& 0xff) with
  | none => none
  | some bus =>
      let m := { m with bus := bus }
      match m.bus.mem_write ((sp + 1) % 65536) ((m.registers.pc >>> 8) &&& 0xff) with
      | none => none
      | some bus =>
          some { m with bus := bus,
                        registers := { m.registers with pc := addr } }

/-- The machine state and result produced when the interrupt service
routine dispatches `flag` to `handler_addr` (cpu.rs lines 1411-1435):
IME is dropped while dispatching, the halt state and the pending IF bit
are cleared, PC is pushed via Cpu::call, the PC is set to the handler,
and IME is set back to true; `none` marks a panic raised by the
stack-push bus writes. -/
def isrDispatch (m : Machine) (flag handler_addr : Nat) : Option (Machine × Bool) :=
  match Machine.call
      { m with
        interrupts_master_enable := false
        halted := false
        bus := { m.bus with io_registers := { m.bus.io_registers with
          interrupt_flag := flagRemove m.bus.io_registers.interrupt_flag flag } } }
      handler_addr with
  | none => none
  | some m2 => some ({ m2 with interrupts_master_enable := true }, true)

/-- Cpu::interrupt_service_routine (cpu.rs lines 1400-1441).  The
source's `for flag in InterruptFlags::all().iter()` loop visits VBLANK,
LCD_STAT, TIMER, SERIAL, JOYPAD in bit order and breaks at the first
flag contained in both IE and IF; it is embedded unrolled, each `break`
arm packaged as `isrDispatch`.  When IME is clear, a pending interrupt
only wakes a halted CPU; when no interrupt is pending, the source's
temporary IME clear is restored before returning. -/
def Machine.interrupt_service_routine (m : Machine) : Option (Machine × Bool) :=
  if !m.interrupts_master_enable then
    if m.bus.io_registers.interrupt_enable &&& m.bus.io_registers.interrupt_flag ≠ 0 then
      some ({ m with halted := false }, false)
    else
      some (m, false)
  else
    if flagContains m.bus.io_registers.interrupt_enable INT_VBLANK ∧
        flagContains m.bus.io_registers.interrupt_flag INT_VBLANK then
      isrDispatch m INT_VBLANK 0x0040
    else if flagContains m.bus.io_registers.interrupt_enable INT_LCD_STAT ∧
        flagContains m.bus.io_registers.interrupt_flag INT_LCD_STAT then
      isrDispatch m INT_LCD_STAT 0x0048
    else if flagContains m.bus.io_registers.interrupt_enable INT_TIMER ∧
        flagContains m.bus.io_registers.interrupt_flag INT_TIMER then
      isrDispatch m INT_TIMER 0x0050
    else if flagContains m.bus.io_registers.interrupt_enable INT_SERIAL ∧
        flagContains m.bus.io_registers.interrupt_flag INT_SERIAL then
      isrDispatch m INT_SERIAL 0x0058
    else if flagContains m.bus.io_registers.interrupt_enable INT_JOYPAD ∧
        flagContains m.bus.io_registers.interrupt_flag INT_JOYPAD then
      isrDispatch m INT_JOYPAD 0x0060
    else
      some ({ m with interrupts_master_enable := true }, false)

/-- TIMA update loop of Cpu::handle_timers (cpu.rs lines 1085-1097):
repeatedly consume `timer_update_freq` T-cycles from the accumulator; each
step increments TIMA, reloading from TMA and requesting the TIMER
interrupt on 8-bit overflow. -/
def timerLoop (acc freq tima tma iflag : Nat) : Nat × Nat × Nat :=
  if h : freq = 0 then (acc, tima, iflag)
  else if h2 : acc < freq then (acc, tima, iflag)
  else
    if tima + 1 > 255 then
      timerLoop (acc - freq) freq tma tma (flagInsert iflag INT_TIMER)
    else
      timerLoop (acc - freq) freq (tima + 1) tma iflag
termination_by acc
decreasing_by all_goals omega

/-- Cpu::handle_timers (cpu.rs lines 1065-1099). -/
def Machine.handle_timers (m : Machine) (m_cycles : Nat) : Machine :=
  let t_cycles := m_cycles * 4
  let io := m.bus.io_registers
  let cpu_clock := (io.cpu_clock + t_cycles) % 65536
  let io := { io with cpu_clock := cpu_clock, div := ((cpu_clock >>> 8) % 256) % 64 }
  let timer_enable := io.tac &&& 0b00000100 ≠ 0
  let timer_update_freq :=
    if io.tac &&& 0b00000011 = 0 then 1024
    else if io.tac &&& 0b00000011 = 1 then 16
    else if io.tac &&& 0b00000011 = 2 then 64
    else 256
  let io :=
    if timer_enable then
      let acc := io.clock_accumulator + t_cycles
      let stepped := timerLoop acc timer_update_freq io.tima io.tma io.interrupt_flag
      { io with clock_accumulator := stepped.1, tima := stepped.2.1,
                interrupt_flag := stepped.2.2 }
    else io
  { m with bus := { m.bus with io_registers := io } }

/-- Instruction dispatch of Cpu::handle_instruction (cpu.rs lines
115-1009), embedded for the opcodes the verified claims exercise (NOP,
LD BC,d16, INC A, LD A,d8, the ADD A,r8 row, XOR A,A and ADD A,d8); the
remaining arms of the source match are not embedded and return `none`,
which no theorem below reaches. -/
def Machine.handle_instruction (m : Machine) : Option (Machine × Nat) :=
  if m.halted then some (m, 1)
  else
    match m.read_u8 with
    | none => none
    | some (m, instruction) =>
        let regs := m.registers
        if instruction = 0x00 then some (m, 1)
        else if instruction = 0x01 then
          match m.read_u16 with
          | none => none
          | some (m, value) =>
              some ({ m with registers := m.registers.set_bc value }, 3)
        else if instruction = 0x3c then
          let fr := cpuIncR8 regs.f regs.a
          some ({ m with registers := { regs with f := fr.1, a := fr.2 } }, 1)
        else if instruction = 0x3e then
          match m.read_u8 with
          | none => none
          | some (m, value) =>
              some ({ m with registers := { m.registers with a := value } }, 2)
        else if instruction = 0x80 then
          let fr := cpuAdd regs.f regs.a regs.b
          some ({ m with registers := { regs with f := fr.1, a := fr.2 } }, 1)
        else if instruction = 0x81 then
          let fr := cpuAdd regs.f regs.a regs.c
          some ({ m with registers := { regs with f := fr.1, a := fr.2 } }, 1)
        else if instruction = 0x82 then
          let fr := cpuAdd regs.f regs.a regs.d
          some ({ m with registers := { regs with f := fr.1, a := fr.2 } }, 1)
        else if instruction = 0x83 then
          let fr := cpuAdd regs.f regs.a regs.e
          some ({ m with registers := { regs with f := fr.1, a := fr.2 } }, 1)
        else if instruction = 0x84 then
          let fr := cpuAdd regs.f regs.a regs.h
          some ({ m with registers := { regs with f := fr.1, a := fr.2 } }, 1)
        else if instruction = 0x85 then
          let fr := cpuAdd regs.f regs.a regs.l
          some ({ m with registers := { regs with f := fr.1, a := fr.2 } }, 1)
        else if instruction = 0x86 then
          match m.bus.mem_read regs.hl with
          | none => none
          | some v =>
              let fr := cpuAdd regs.f regs.a v
              some ({ m with registers := { regs with f := fr.1, a := fr.2 } }, 2)
        else if instruction = 0x87 then
          let fr := cpuAdd regs.f regs.a regs.a
          some ({ m with registers := { regs with f := fr.1, a := fr.2 } }, 1)
        else if instruction = 0xaf then
          let fr := cpuXor regs.f regs.a regs.a
          some ({ m with registers := { regs with f := fr.1, a := fr.2 } }, 1)
        else if instruction = 0xc6 then
          match m.read_u8 with
          | none => none
          | some (m, value) =>
              let fr := cpuAdd m.registers.f m.registers.a value
              some ({ m with registers :=
                { m.registers with f := fr.1, a := fr.2 } }, 2)
        else none

/-- Cpu::execute (cpu.rs lines 89-113): one CPU step.  DMA stepping takes
priority, then interrupt service (5 machine cycles when dispatched), then
one instruction followed by the timer update.  Returns the machine and the
number of machine cycles consumed; `none` marks a panic. -/
def Machine.execute (m : Machine) : Option (Machine × Nat) :=
  if m.bus.io_registers.dma_counter > 0 then
    let src_base_addr := m.bus.io_registers.dma <<< 8
    let byte_index := 160 - m.bus.io_registers.dma_counter
    match m.bus.mem_read (src_base_addr + byte_index) with
    | none => none
    | some v =>
        match m.bus.mem_write (0xfe00 + byte_index) v with
        | none => none
        | some bus =>
            let bus := { bus with io_registers :=
              { bus.io_registers with
                dma_counter := bus.io_registers.dma_counter - 1 } }
            some ({ m with bus := bus }, 1)
  else
    match m.interrupt_service_routine with
    | none => none
    | some (m, true) => some (m, 5)
    | some (m, false) =>
        match m.handle_instruction with
        | none => none
        | some (m, m_cycles) => some (m.handle_timers m_cycles, m_cycles)

/-- Bus::load (gameboy/bus.rs lines 76-108): verify the checksum (result
unused), read the header fields, reset the bus and rebuild the ROM and RAM
bank arrays.  No cartridge-type validation is performed.  `none` marks a
panic on a truncated image (header or bank slice out of range, or an
undefined RAM size code). -/
def Bus.load (_b : Bus) (program : Nat → Nat) (program_len : Nat) : Option Bus :=
  if program_len ≤ 0x014d then none
  else
    let _checksum := verify_checksum program
    let _cartridge_type := program 0x0147
    let rom_size_type := program 0x0148
    let rom_size_bytes := 32 * 1024 * (1 <<< rom_size_type)
    let bank_count := rom_size_bytes / 0x4000
    if program_len < bank_count * 0x4000 then none
    else
      let rom_banks := (List.range bank_count).map
        (fun i => fun a => program (i * 0x4000 + a))
      let cartridge_ram_size_type := program 0x0149
      match cartridge_ram_size_kib cartridge_ram_size_type with
      | none => none
      | some kib =>
          let ram_bank_count := kib * 1024 / 0x2000
          let ram_banks := (List.range ram_bank_count).map
            (fun _ => fun _ => (0 : Nat))
          some { Bus.new with
            rom_current_bank := 1
            rom_banks := rom_banks
            cartridge_ram_size_type := cartridge_ram_size_type
            ram_enable := false
            ram_banks := ram_banks
            program := program
            program_len := program_len }

/-- Membership of a bit in a flag aggregate is its test bit. -/
lemma flagContains_two_pow (f k : Nat) :
    flagContains f (1 <<< k) = f.testBit k := by
  rw [flagContains, Nat.one_shiftLeft, Nat.and_two_pow]
  have hpow : (2 : Nat) ^ k ≠ 0 := Nat.pos_iff_ne_zero.mp (Nat.pos_pow_of_pos k (by norm_num))
  cases h : f.testBit k <;> simp [hpow, Ne.symm hpow]

/-- A value with a nonzero masked low part has a set bit under the mask. -/
lemma exists_bit_of_masked_ne_zero {x : Nat} (h : x &&& 0x1f ≠ 0) :
    ∃ j, j < 5 ∧ x.testBit j = true := by
  by_contra hall
  push_neg at hall
  apply h
  apply Nat.zero_of_testBit_eq_false
  intro i
  rw [Nat.testBit_land]
  by_cases hi : i < 5
  · have := hall i hi
    simp [this]
  · have h31 : (0x1f : Nat).testBit i = false := by
      have : (0x1f : Nat) = 2 ^ 5 - 1 := by norm_num
      rw [this, Nat.testBit_two_pow_sub_one]
      simp [hi]
    simp [h31]

/-- Inserting a flag sets exactly that bit. -/
lemma testBit_flagInsert (f k j : Nat) :
    (flagInsert f (1 <<< k)).testBit j = (f.testBit j || decide (k = j)) := by
  rw [flagInsert, Nat.testBit_lor, Nat.one_shiftLeft, Nat.testBit_two_pow]

/-- Removing a flag clears exactly that bit (within the 8-bit register). -/
lemma testBit_flagRemove (f k j : Nat) (hj : j < 8) :
    (flagRemove f (1 <<< k)).testBit j = (f.testBit j && !decide (k = j)) := by
  rw [flagRemove, Nat.testBit_land, Nat.testBit_xor, Nat.one_shiftLeft,
    Nat.testBit_two_pow]
  have hff : (0xff : Nat).testBit j = true := by
    have : (0xff : Nat) = 2 ^ 8 - 1 := by norm_num
    rw [this, Nat.testBit_two_pow_sub_one]
    simp [hj]
  rw [hff]
  cases f.testBit j <;> cases h : decide (k = j) <;> simp_all

/-- Conditionally writing a flag bit leaves the other register bits
unchanged and stores the condition in the addressed bit. -/
lemma testBit_flagSet (f k j : Nat) (b : Bool) (hj : j < 8) :
    (flagSet f (1 <<< k) b).testBit j = if k = j then b else f.testBit j := by
  rw [flagSet]
  cases b
  · rw [if_neg (by simp), testBit_flagRemove f k j hj]
    by_cases h : k = j <;> simp [h]
  · rw [if_pos rfl, testBit_flagInsert]
    by_cases h : k = j <;> simp [h]

/-- The masked low 6 bits complement is bit-disjoint from the masked high
2 bits, so the NR11/NR21 write expression is identically zero. -/
lemma nrx1_write_is_zero (v : Nat) :
    (v &&& 0xc0) &&& (63 - (v &&& 0x3f)) = 0 := by
  apply Nat.eq_of_testBit_eq
  intro i
  rw [Nat.testBit_land, Nat.testBit_land]
  by_cases hi : i < 6
  · have hc : (0xc0 : Nat).testBit i = false := by
      interval_cases i <;> decide
    simp [hc]
  · have hlow : (63 - (v &&& 0x3f)).testBit i = false := by
      apply Nat.testBit_eq_false_of_lt
      calc 63 - (v &&& 0x3f) < 2 ^ 6 := by omega
        _ ≤ 2 ^ i := Nat.pow_le_pow_right (by norm_num) (by omega)
    simp [hlow]

/-- A value below 64 is unchanged by the 6-bit mask. -/
lemma land_63_of_lt (x : Nat) (h : x < 64) : x &&& 0x3f = x := by
  have : (0x3f : Nat) = 2 ^ 6 - 1 := by norm_num
  rw [this, Nat.and_pow_two_sub_one_eq_mod, Nat.mod_eq_of_lt h]

/-- C9.  The claim is right and the code is wrong: the spec (together
with its design note on the length-timer reload) requires a write of `v`
to NR11/NR21/NR41 to reload the length counter with `64 - (v & 0x3F)` and
to preserve the duty bits.  The source computes
`(value & 0xC0) & (63 - (value & 0x3F))` for NR11/NR21 — a bitwise AND of
two disjoint bit fields, identically zero — so the stored register and
the length timer are always 0 and the duty bits are destroyed; for NR41
it stores `63 - (value & 0x3F)`, off by one from the specified reload. -/
theorem apu_length_reload_bug :
    (∀ (a : Apu) (v : Nat), ∃ a2, Apu.mem_write a 0xff11 v = some a2 ∧
      a2.nr11 = 0 ∧ a2.ch1_length_timer = 0) ∧
    (∀ (a : Apu) (v : Nat), ∃ a2, Apu.mem_write a 0xff16 v = some a2 ∧
      a2.nr21 = 0 ∧ a2.ch2_length_timer = 0) ∧
    (∀ (a : Apu) (v : Nat), ∃ a2, Apu.mem_write a 0xff20 v = some a2 ∧
      a2.nr41 = 63 - (v &&& 0x3f) ∧ a2.ch4_length_timer = 63 - (v &&& 0x3f)) ∧
    (Apu.mem_write Apu.new 0xff11 0x00).map
      (fun a => (a.nr11, a.ch1_length_timer)) = some (0, 0) ∧
    (Apu.mem_write Apu.new 0xff20 0x00).map
      (fun a => (a.nr41, a.ch4_length_timer)) = some (63, 63) := by
  refine ⟨?_, ?_, ?_, by decide, by decide⟩
  · intro a v
    refine ⟨_, rfl, ?_, ?_⟩ <;> simp [Apu.mem_write, nrx1_write_is_zero]
  · intro a v
    refine ⟨_, rfl, ?_, ?_⟩ <;> simp [Apu.mem_write, nrx1_write_is_zero]
  · intro a v
    refine ⟨_, rfl, ?_, ?_⟩
    · rfl
    · show (63 - (v &&& 0x3f)) &&& 0x3f = 63 - (v &&& 0x3f)
      exact land_63_of_lt _ (by omega)

/-- C8, counterexample.  The claim says a bus read of the write-only
register NR13 (0xFF13) is total and returns 0xFF; on the source the read
reaches `panic!("cannot read nr13 register")` in Apu::mem_read, embedded
as `none`. -/
theorem bus_read_nr13_panics :
    Bus.mem_read Bus.new 0xff13 = none ∧
    ¬ Bus.mem_read Bus.new 0xff13 = some 0xff := by
  exact ⟨rfl, by decide⟩

/-- C8, amended.  Bus reads of the write-only audio registers NR13, NR23,
NR31, NR33, NR41 panic, as do reads of the unmapped APU-range slots
(0xFF15 among them) and of the CGB registers 0xFF51-0xFF55, 0xFF76,
0xFF77 handled by IoRegisters; reads of unmapped I/O addresses outside
those sets (0xFF03, 0xFF08, 0xFF57, ...) and of the prohibited region
0xFEA0-0xFEFF are total and return 0xFF. -/
theorem bus_read_write_only (b : Bus) :
    (Bus.mem_read b 0xff13 = none ∧ Bus.mem_read b 0xff18 = none ∧
     Bus.mem_read b 0xff1b = none ∧ Bus.mem_read b 0xff1d = none ∧
     Bus.mem_read b 0xff20 = none ∧ Bus.mem_read b 0xff15 = none ∧
     Bus.mem_read b 0xff51 = none ∧ Bus.mem_read b 0xff76 = none) ∧
    (Bus.mem_read b 0xff03 = some 0xff ∧ Bus.mem_read b 0xff08 = some 0xff ∧
     Bus.mem_read b 0xff57 = some 0xff ∧ Bus.mem_read b 0xfea5 = some 0xff) := by
  exact ⟨⟨rfl, rfl, rfl, rfl, rfl, rfl, rfl, rfl⟩, ⟨rfl, rfl, rfl, rfl⟩⟩

/-- A loaded bus whose cartridge header declares ROM size code 5
(1 MiB, a valid code per the header table). -/
def busRom5 : Bus := { Bus.new with
  program := fun a => if a = 0x0148 then 5 else 0
  program_len := 0x8000 }

/-- An MBC1 cartridge with ROM size code 5, Simple banking mode and a
zero secondary bank register, as produced by Cartridge::load. -/
def cartRom5 : Cartridge where
  program := fun a => if a = 0x0148 then 5 else 0
  program_len := 0x8000
  mapper := Mapper.MBC1
  banking_mode := BankingMode.Simple
  cartridge_rom_size_type := 5
  rom_current_bank := 1
  rom_secondary_bank_register := 0
  rom_banks := []
  cartridge_ram_size_type := 0
  ram_enable := false
  ram_current_bank := 0
  ram_banks := []

/-- C10.  The claim is right and the code is wrong: for every valid ROM
size code 0-8 a bus write to the ROM-bank-select region should be total,
but Bus::mem_write's bank-mask match (gameboy/bus.rs lines 165-173) ends
in `unreachable!()` for size codes above 4, so a write of 0x01 to 0x2000
on a size-code-5 cartridge panics.  The sibling implementation
Cartridge::mem_write_mbc1 (gameboy/cartridge.rs lines 156-178) handles
the same codes with a total `_ => 0b0001_1111` arm, showing the intent. -/
theorem bus_bank_write_panics :
    Bus.mem_write busRom5 0x2000 0x01 = none ∧
    (∀ v : Nat, (Cartridge.mem_write_mbc1 cartRom5 0x2000 v).isSome = true) := by
  exact ⟨rfl, fun v => rfl⟩

/-- C3, counterexample.  On an MBC1 cartridge with ROM size code 5 in
Simple mode (secondary bank register 0), writing 0x20, 0x40 or 0x60 to
the 0x2000-0x3FFF region selects bank 0x01, not the claimed 0x21, 0x41,
0x61: the written value is masked to the low 5 bits (so 0x20/0x40/0x60
become 0) and the combined zero value is always forced to 1, because the
mirroring exception tests bit 4 of a value already known to be zero. -/
theorem mbc1_bank0_alias_refuted :
    (Cartridge.mem_write_mbc1 cartRom5 0x2000 0x20).map
      (fun c => c.rom_current_bank) = some 0x01 ∧
    (Cartridge.mem_write_mbc1 cartRom5 0x2000 0x40).map
      (fun c => c.rom_current_bank) = some 0x01 ∧
    (Cartridge.mem_write_mbc1 cartRom5 0x2000 0x60).map
      (fun c => c.rom_current_bank) = some 0x01 ∧
    (Cartridge.mem_write_mbc1 cartRom5 0x2000 0x00).map
      (fun c => c.rom_current_bank) = some 0x01 ∧
    (0x01 : Nat) ≠ 0x21 := by
  exact ⟨rfl, rfl, rfl, rfl, by decide⟩

/-- C3, amended.  A write of `v` to 0x2000-0x3FFF sets the ROM bank to
`rom_secondary_bank_register <<< 5 ||| (v &&& mask)` with the
ROM-size-derived mask, and a final value of 0 is always forced to 1 — the
mirrored-bank exception of the source is dead code, since the condition
`bank & 0x10 != 0` is evaluated on the zero value.  In particular, with
the secondary register at 0, each of the writes 0x00, 0x20, 0x40, 0x60
selects bank 0x01. -/
theorem mbc1_bank_select (c : Cartridge) (addr v : Nat)
    (h1 : 0x2000 ≤ addr) (h2 : addr ≤ 0x3fff) :
    (Cartridge.mem_write_mbc1 c addr v =
      let mask : Nat :=
        if c.cartridge_rom_size_type = 0 then 0b00000001
        else if c.cartridge_rom_size_type = 1 then 0b00000011
        else if c.cartridge_rom_size_type = 2 then 0b00000111
        else if c.cartridge_rom_size_type = 3 then 0b00001111
        else 0b00011111
      let bank := (c.rom_secondary_bank_register <<< 5) ||| (v &&& mask)
      some { c with rom_current_bank := if bank = 0 then 1 else bank }) ∧
    (c.rom_secondary_bank_register = 0 →
      (v = 0x00 ∨ v = 0x20 ∨ v = 0x40 ∨ v = 0x60) →
      (Cartridge.mem_write_mbc1 c addr v).map
        (fun c2 => c2.rom_current_bank) = some 0x01) := by
  have hbody : Cartridge.mem_write_mbc1 c addr v =
      (let mask : Nat :=
        if c.cartridge_rom_size_type = 0 then 0b00000001
        else if c.cartridge_rom_size_type = 1 then 0b00000011
        else if c.cartridge_rom_size_type = 2 then 0b00000111
        else if c.cartridge_rom_size_type = 3 then 0b00001111
        else 0b00011111
      let bank := (c.rom_secondary_bank_register <<< 5) ||| (v &&& mask)
      let allow_bank0_mirroring := bank &&& 0b00010000 ≠ 0
      let bank :=
        if bank = 0x00 then
          if allow_bank0_mirroring then 0x00 else 0x01
        else bank
      some { c with rom_current_bank := bank }) := by
    rw [Cartridge.mem_write_mbc1, if_neg (by omega), if_pos (by omega)]
  constructor
  · rw [hbody]
    simp only
    congr 1
    by_cases hz : (c.rom_secondary_bank_register <<< 5) |||
        (v &&& (if c.cartridge_rom_size_type = 0 then 0b00000001
        else if c.cartridge_rom_size_type = 1 then 0b00000011
        else if c.cartridge_rom_size_type = 2 then 0b00000111
        else if c.cartridge_rom_size_type = 3 then 0b00001111
        else 0b00011111)) = 0
    · rw [if_pos hz, if_pos hz, hz]
      norm_num
    · rw [if_neg hz, if_neg hz]
  · intro hsec hv
    rw [hbody, hsec]
    have hmask : ∀ mask : Nat, mask ≤ 31 → v &&& mask = 0 := by
      intro mask hm
      rcases hv with rfl | rfl | rfl | rfl
      · simp
      all_goals {
        apply Nat.eq_of_testBit_eq
        intro i
        rw [Nat.testBit_land, Nat.zero_testBit]
        by_cases hi : i < 5
        · have : ∀ j, j < 5 → Nat.testBit 0x20 j = false ∧
              Nat.testBit 0x40 j = false ∧ Nat.testBit 0x60 j = false := by
            intro j hj
            interval_cases j <;> exact ⟨rfl, rfl, rfl⟩
          rcases this i hi with ⟨h1, h2, h3⟩
          simp [h1, h2, h3]
        · have : mask.testBit i = false := by
            apply Nat.testBit_eq_false_of_lt
            calc mask < 2 ^ 5 := by omega
              _ ≤ 2 ^ i := Nat.pow_le_pow_right (by norm_num) (by omega)
          simp [this]
      }
    have hsplit : (v &&& (if c.cartridge_rom_size_type = 0 then 0b00000001
        else if c.cartridge_rom_size_type = 1 then 0b00000011
        else if c.cartridge_rom_size_type = 2 then 0b00000111
        else if c.cartridge_rom_size_type = 3 then 0b00001111
        else 0b00011111)) = 0 := by
      split <;> [exact hmask 1 (by norm_num); skip] <;>
        split <;> [exact hmask 3 (by norm_num); skip] <;>
        split <;> [exact hmask 7 (by norm_num); skip] <;>
        split <;> [exact hmask 15 (by norm_num); exact hmask 31 (by norm_num)]
    simp only [hsplit]
    norm_num

/-- Witness for the amended C3 theorem at a concrete cartridge: writing
0x12 on the size-code-5 cartridge selects bank 0x12. -/
theorem mbc1_bank_select_witness :
    (Cartridge.mem_write_mbc1 cartRom5 0x3000 0x12).map
      (fun c2 => c2.rom_current_bank) = some 0x12 := by
  rw [(mbc1_bank_select cartRom5 0x3000 0x12 (by norm_num) (by norm_num)).1]
  rfl

/-- Bus writes into work RAM store into the wram array. -/
lemma bus_write_wram (b : Bus) (a v : Nat) (h1 : 0xc000 ≤ a) (h2 : a ≤ 0xdfff) :
    Bus.mem_write b a v = some { b with wram := upd b.wram (a - 0xc000) v } := by
  rw [Bus.mem_write]
  repeat rw [if_neg (by omega)]
  rw [if_pos (by omega)]

/-- Bus writes into the echo region store into the wram array. -/
lemma bus_write_echo (b : Bus) (a v : Nat) (h1 : 0xe000 ≤ a) (h2 : a ≤ 0xfdff) :
    Bus.mem_write b a v = some { b with wram := upd b.wram (a - 0xe000) v } := by
  rw [Bus.mem_write]
  repeat rw [if_neg (by omega)]
  rw [if_pos (by omega)]

/-- Bus writes into high RAM store into the hram array. -/
lemma bus_write_hram (b : Bus) (a v : Nat) (h1 : 0xff80 ≤ a) (h2 : a ≤ 0xfffe) :
    Bus.mem_write b a v = some { b with hram := upd b.hram (a - 0xff80) v } := by
  rw [Bus.mem_write]
  repeat rw [if_neg (by omega)]
  rw [if_pos (by omega)]

/-- Bus writes into 0x8000-0x9FFF store into VRAM. -/
lemma bus_write_vram (b : Bus) (a v : Nat) (h1 : 0x8000 ≤ a) (h2 : a ≤ 0x9fff) :
    Bus.mem_write b a v = some { b with ppu := { b.ppu with vram :=
      { b.ppu.vram with vram := upd b.ppu.vram.vram (a - 0x8000) v } } } := by
  rw [Bus.mem_write]
  repeat rw [if_neg (by omega)]
  rw [if_pos (by omega), Vram.mem_write, if_pos (by omega)]

/-- Bus writes into 0xFE00-0xFE9F store into OAM. -/
lemma bus_write_oam (b : Bus) (a v : Nat) (h1 : 0xfe00 ≤ a) (h2 : a ≤ 0xfe9f) :
    Bus.mem_write b a v = some { b with ppu := { b.ppu with vram :=
      { b.ppu.vram with oam := upd b.ppu.vram.oam (a - 0xfe00) v } } } := by
  rw [Bus.mem_write]
  repeat rw [if_neg (by omega)]
  rw [if_pos (by omega), Vram.mem_write, if_neg (by omega), if_pos (by omega)]

/-- Bus reads from work RAM come from the wram array. -/
lemma bus_read_wram (b : Bus) (a : Nat) (h1 : 0xc000 ≤ a) (h2 : a ≤ 0xdfff) :
    Bus.mem_read b a = some (b.wram (a - 0xc000)) := by
  rw [Bus.mem_read]
  repeat rw [if_neg (by omega)]
  rw [if_pos (by omega)]

/-- Bus reads from the echo region come from the wram array. -/
lemma bus_read_echo (b : Bus) (a : Nat) (h1 : 0xe000 ≤ a) (h2 : a ≤ 0xfdff) :
    Bus.mem_read b a = some (b.wram (a - 0xe000)) := by
  rw [Bus.mem_read]
  repeat rw [if_neg (by omega)]
  rw [if_pos (by omega)]

/-- Bus reads from high RAM come from the hram array. -/
lemma bus_read_hram (b : Bus) (a : Nat) (h1 : 0xff80 ≤ a) (h2 : a ≤ 0xfffe) :
    Bus.mem_read b a = some (b.hram (a - 0xff80)) := by
  rw [Bus.mem_read]
  repeat rw [if_neg (by omega)]
  rw [if_pos (by omega)]

/-- Bus reads from 0x8000-0x9FFF come from VRAM. -/
lemma bus_read_vram (b : Bus) (a : Nat) (h1 : 0x8000 ≤ a) (h2 : a ≤ 0x9fff) :
    Bus.mem_read b a = some (b.ppu.vram.vram (a - 0x8000)) := by
  rw [Bus.mem_read]
  repeat rw [if_neg (by omega)]
  rw [if_pos (by omega), Vram.mem_read, if_pos (by omega)]

/-- Bus reads from 0xFE00-0xFE9F return 0 without consulting OAM. -/
lemma bus_read_oam (b : Bus) (a : Nat) (h1 : 0xfe00 ≤ a) (h2 : a ≤ 0xfe9f) :
    Bus.mem_read b a = some 0 := by
  rw [Bus.mem_read]
  repeat rw [if_neg (by omega)]
  rw [if_pos (by omega)]

/-- C6, counterexample.  Writing 0xAB to the OAM address 0xFE00 through
the bus and reading it back yields 0, not 0xAB: Bus::mem_read has the arm
`0xfe00..=0xfe9f => 0` while Bus::mem_write forwards the store to OAM, so
the claimed write/read round trip fails on every OAM address. -/
theorem bus_oam_round_trip_refuted :
    (Bus.mem_write Bus.new 0xfe00 0xab).bind
      (fun b => Bus.mem_read b 0xfe00) = some 0 ∧
    ¬ (Bus.mem_write Bus.new 0xfe00 0xab).bind
      (fun b => Bus.mem_read b 0xfe00) = some 0xab := by
  exact ⟨rfl, by decide⟩

/-- C6, amended.  Writing then reading the same address through the bus
returns the written value on VRAM, work RAM, the echo region and high
RAM; on OAM the write is stored in the OAM array but the bus read
returns 0 regardless. -/
theorem bus_round_trip (b : Bus) (a v : Nat)
    (h : (0x8000 ≤ a ∧ a ≤ 0x9fff) ∨ (0xc000 ≤ a ∧ a ≤ 0xdfff) ∨
      (0xe000 ≤ a ∧ a ≤ 0xfdff) ∨ (0xff80 ≤ a ∧ a ≤ 0xfffe)) :
    (∃ b2, Bus.mem_write b a v = some b2 ∧ Bus.mem_read b2 a = some v) ∧
    (∀ a2, 0xfe00 ≤ a2 → a2 ≤ 0xfe9f →
      ∃ b2, Bus.mem_write b a2 v = some b2 ∧ Bus.mem_read b2 a2 = some 0 ∧
        b2.ppu.vram.oam (a2 - 0xfe00) = v) := by
  constructor
  · rcases h with ⟨h1, h2⟩ | ⟨h1, h2⟩ | ⟨h1, h2⟩ | ⟨h1, h2⟩
    · exact ⟨_, bus_write_vram b a v h1 h2, by
        rw [bus_read_vram _ a h1 h2]; simp [upd]⟩
    · exact ⟨_, bus_write_wram b a v h1 h2, by
        rw [bus_read_wram _ a h1 h2]; simp [upd]⟩
    · exact ⟨_, bus_write_echo b a v h1 h2, by
        rw [bus_read_echo _ a h1 h2]; simp [upd]⟩
    · exact ⟨_, bus_write_hram b a v h1 h2, by
        rw [bus_read_hram _ a h1 h2]; simp [upd]⟩
  · intro a2 ha1 ha2
    exact ⟨_, bus_write_oam b a2 v ha1 ha2, bus_read_oam _ a2 ha1 ha2, by
      simp [upd]⟩

/-- Witness for the amended C6 theorem at a concrete address: the WRAM
round trip at 0xC123 returns the written byte, and the OAM store at
0xFE10 is visible in the OAM array while the bus read returns 0. -/
theorem bus_round_trip_witness :
    (∃ b2, Bus.mem_write Bus.new 0xc123 0x5a = some b2 ∧
      Bus.mem_read b2 0xc123 = some 0x5a) ∧
    (∃ b2, Bus.mem_write Bus.new 0xfe10 0x5a = some b2 ∧
      Bus.mem_read b2 0xfe10 = some 0 ∧ b2.ppu.vram.oam 0x10 = 0x5a) := by
  have h := bus_round_trip Bus.new 0xc123 0x5a (by norm_num)
  exact ⟨h.1, h.2 0xfe10 (by norm_num) (by norm_num)⟩

/-- A 32 KiB cartridge image whose type byte is `t` and whose other
header bytes (ROM size, RAM size, checksum) are zero. -/
def progType (t : Nat) : Nat → Nat :=
  fun a => if a = 0x0147 then t else 0

/-- C7, counterexample.  The claim says loading an image with an
unsupported type code (here 0x05, MBC2) rejects it with a returned error
and leaves the core safe to reuse.  On the source, Cartridge::load has
signature `fn load(program: Vec<u8>) -> Self` and reaches
`unimplemented!("MBC2")` — a panic, embedded as `none` — while Bus::load
(the loader actually wired to the core) reads the type byte into an
unused variable and accepts the image without any validation. -/
theorem cartridge_load_refuted :
    Cartridge.load (progType 0x05) 0x8000 = none ∧
    (Bus.load Bus.new (progType 0x05) 0x8000).isSome = true := by
  constructor
  · rfl
  · rfl

/-- C7, amended.  Cartridge::load panics (`unimplemented!` or
`unreachable!`) on every cartridge type code outside
{0x00, 0x08, 0x09, 0x01-0x03} instead of returning an error result, and
accepts the supported codes; Bus::load performs no type validation and
accepts any type byte. -/
theorem cartridge_load_amended (p : Nat → Nat) (t : Nat)
    (ht : p 0x0147 = t) (hrom : p 0x0148 = 0) (hram : p 0x0149 = 0) :
    ((t = 0x00 ∨ t = 0x08 ∨ t = 0x09 ∨ (0x01 ≤ t ∧ t ≤ 0x03)) →
      (Cartridge.load p 0x8000).isSome = true) ∧
    (¬ (t = 0x00 ∨ t = 0x08 ∨ t = 0x09 ∨ (0x01 ≤ t ∧ t ≤ 0x03)) →
      Cartridge.load p 0x8000 = none) ∧
    (Bus.load Bus.new p 0x8000).isSome = true := by
  have hsize : 32 * 1024 * (1 <<< p 0x0148) / 0x4000 = 2 := by
    rw [hrom]; rfl
  refine ⟨?_, ?_, ?_⟩
  · intro hsupp
    rw [Cartridge.load, if_neg (by omega)]
    simp only [ht, hsize, hram]
    have hm : (if t = 0x00 ∨ t = 0x08 ∨ t = 0x09 then some Mapper.None
        else if 0x01 ≤ t ∧ t ≤ 0x03 then some Mapper.MBC1
        else none).isSome = true := by
      rcases hsupp with h | h | h | h
      · rw [if_pos (Or.inl h)]; rfl
      · rw [if_pos (Or.inr (Or.inl h))]; rfl
      · rw [if_pos (Or.inr (Or.inr h))]; rfl
      · by_cases h0 : t = 0x00 ∨ t = 0x08 ∨ t = 0x09
        · rw [if_pos h0]; rfl
        · rw [if_neg h0, if_pos h]; rfl
    rcases hmm : (if t = 0x00 ∨ t = 0x08 ∨ t = 0x09 then some Mapper.None
        else if 0x01 ≤ t ∧ t ≤ 0x03 then some Mapper.MBC1
        else none) with _ | mp
    · rw [hmm] at hm; simp at hm
    · rfl
  · intro hunsupp
    rw [Cartridge.load, if_neg (by omega)]
    simp only [ht]
    rw [if_neg (fun h => hunsupp (by tauto)), if_neg (fun h => hunsupp (by tauto))]
  · rw [Bus.load, if_neg (by omega)]
    simp only [hsize, hram]
    rw [if_neg (by norm_num)]
    rfl

/-- Witness for the amended C7 theorem: a type-0x01 (MBC1) image loads. -/
theorem cartridge_load_amended_witness :
    (Cartridge.load (progType 0x01) 0x8000).isSome = true := by
  exact (cartridge_load_amended (progType 0x01) 0x01 rfl rfl rfl).1
    (Or.inr (Or.inr (Or.inr ⟨by norm_num, by norm_num⟩)))


/-- The 4-bit mask is reduction mod 16. -/
lemma land_0x0f (a : Nat) : a &&& 0x0f = a % 16 := by
  have h : (0x0f : Nat) = 2 ^ 4 - 1 := by norm_num
  rw [h, Nat.and_pow_two_sub_one_eq_mod]

/-- Bit 4 of a sum of two nibbles is the half-carry condition. -/
lemma half_carry_iff (x : Nat) (hx : x < 32) :
    ((x &&& 0x10) != 0) = decide (15 < x) := by
  have h16 : (0x10 : Nat) = 2 ^ 4 := by norm_num
  have hp : (2 : Nat) ^ 4 = 16 := by norm_num
  rw [h16, Nat.and_two_pow, Nat.testBit_to_div_mod]
  by_cases h : 15 < x
  · have hd : x / 2 ^ 4 % 2 = 1 := by rw [hp]; omega
    rw [hd]
    simp [h]
  · have hd : x / 2 ^ 4 % 2 = 0 := by rw [hp]; omega
    rw [hd]
    simp [h]

/-- Writing the ZERO flag bit. -/
lemma testBit_set_Z (f j : Nat) (b : Bool) (hj : j < 8) :
    (flagSet f FLAG_ZERO b).testBit j = if 7 = j then b else f.testBit j :=
  testBit_flagSet f 7 j b hj

/-- Writing the HALF_CARRY flag bit. -/
lemma testBit_set_H (f j : Nat) (b : Bool) (hj : j < 8) :
    (flagSet f FLAG_HALF_CARRY b).testBit j = if 5 = j then b else f.testBit j :=
  testBit_flagSet f 5 j b hj

/-- Writing the CARRY flag bit. -/
lemma testBit_set_C (f j : Nat) (b : Bool) (hj : j < 8) :
    (flagSet f FLAG_CARRY b).testBit j = if 4 = j then b else f.testBit j :=
  testBit_flagSet f 4 j b hj

/-- Clearing the NEGATIVE flag bit. -/
lemma testBit_remove_N (f j : Nat) (hj : j < 8) :
    (flagRemove f FLAG_NEGATIVE).testBit j = (f.testBit j && !decide (6 = j)) :=
  testBit_flagRemove f 6 j hj

/-- The four flag bits produced by Cpu::add. -/
lemma cpuAdd_flag_bits (f a b : Nat) :
    (cpuAdd f a b).1.testBit 7 = ((a + b) % 256 == 0) ∧
    (cpuAdd f a b).1.testBit 6 = false ∧
    (cpuAdd f a b).1.testBit 5 = ((((a &&& 0x0f) + (b &&& 0x0f)) &&& 0x10) != 0) ∧
    (cpuAdd f a b).1.testBit 4 = decide (255 < a + b) := by
  simp only [cpuAdd]
  refine ⟨?_, ?_, ?_, ?_⟩
  · rw [testBit_set_C _ 7 _ (by norm_num), if_neg (by norm_num),
      testBit_set_H _ 7 _ (by norm_num), if_neg (by norm_num),
      testBit_remove_N _ 7 (by norm_num),
      testBit_set_Z _ 7 _ (by norm_num), if_pos rfl]
    simp
  · rw [testBit_set_C _ 6 _ (by norm_num), if_neg (by norm_num),
      testBit_set_H _ 6 _ (by norm_num), if_neg (by norm_num),
      testBit_remove_N _ 6 (by norm_num)]
    simp
  · rw [testBit_set_C _ 5 _ (by norm_num), if_neg (by norm_num),
      testBit_set_H _ 5 _ (by norm_num), if_pos rfl]
  · rw [testBit_set_C _ 4 _ (by norm_num), if_pos rfl]

/-- The cartridge image of the end-to-end scenario: `3E 80 87 00` at
0x0100 (LD A,0x80; ADD A,A) with a plain-ROM header. -/
def prog2 : Nat → Nat := fun a =>
  if a = 0x0100 then 0x3e
  else if a = 0x0101 then 0x80
  else if a = 0x0102 then 0x87
  else 0

/-- The bus after loading the scenario image. -/
def bus2 : Bus := (Bus.load Bus.new prog2 0x8000).getD Bus.new

/-- Power-up machine with the scenario cartridge loaded. -/
def machC2 : Machine where
  bus := bus2
  interrupts_master_enable := true
  registers := CpuRegisters.default
  halted := false

/-- C2.  For all 8-bit `(a, b)`, Cpu::add computes `(a + b) & 0xFF`, sets
Z iff the truncated sum is zero, C iff `a + b > 0xFF`, H iff the nibble
sum exceeds 0xF, and clears N; and the program `3E 80 87 00` run from the
post-power-up state leaves A = 0 with Z = 1, C = 1, H = 0, N = 0 after
two steps. -/
theorem cpu_add_flag_laws :
    (∀ f a b : Nat, a < 256 → b < 256 →
      (cpuAdd f a b).2 = (a + b) % 256 ∧
      (flagContains (cpuAdd f a b).1 FLAG_ZERO = true ↔ (a + b) % 256 = 0) ∧
      (flagContains (cpuAdd f a b).1 FLAG_CARRY = true ↔ 255 < a + b) ∧
      (flagContains (cpuAdd f a b).1 FLAG_HALF_CARRY = true ↔
        15 < a % 16 + b % 16) ∧
      flagContains (cpuAdd f a b).1 FLAG_NEGATIVE = false) ∧
    (machC2.execute.bind (fun s => s.1.execute)).map (fun s =>
      (s.1.registers.a, flagContains s.1.registers.f FLAG_ZERO,
       flagContains s.1.registers.f FLAG_CARRY,
       flagContains s.1.registers.f FLAG_HALF_CARRY,
       flagContains s.1.registers.f FLAG_NEGATIVE)) =
      some (0x00, true, true, false, false) := by
  constructor
  · intro f a b ha hb
    obtain ⟨h7, h6, h5, h4⟩ := cpuAdd_flag_bits f a b
    refine ⟨rfl, ?_, ?_, ?_, ?_⟩
    · rw [show FLAG_ZERO = 1 <<< 7 from rfl, flagContains_two_pow, h7]
      simp
    · rw [show FLAG_CARRY = 1 <<< 4 from rfl, flagContains_two_pow, h4]
      simp
    · rw [show FLAG_HALF_CARRY = 1 <<< 5 from rfl, flagContains_two_pow, h5,
        land_0x0f, land_0x0f, half_carry_iff _ (by omega)]
      simp
    · rw [show FLAG_NEGATIVE = 1 <<< 6 from rfl, flagContains_two_pow, h6]
  · decide

/-- Witness for the universal part of the C2 theorem at a = b = 0x80. -/
theorem cpu_add_flag_laws_witness :
    (0x80 : Nat) < 256 ∧
    ((cpuAdd 0xb0 0x80 0x80).2 = (0x80 + 0x80) % 256 ∧
     (flagContains (cpuAdd 0xb0 0x80 0x80).1 FLAG_ZERO = true ↔
       (0x80 + 0x80) % 256 = 0) ∧
     (flagContains (cpuAdd 0xb0 0x80 0x80).1 FLAG_CARRY = true ↔
       255 < 0x80 + 0x80) ∧
     (flagContains (cpuAdd 0xb0 0x80 0x80).1 FLAG_HALF_CARRY = true ↔
       15 < 0x80 % 16 + 0x80 % 16) ∧
     flagContains (cpuAdd 0xb0 0x80 0x80).1 FLAG_NEGATIVE = false) :=
  ⟨by decide, cpu_add_flag_laws.1 0xb0 0x80 0x80 (by decide) (by decide)⟩

/-- Reading back the updated cell of a byte array. -/
lemma upd_same (f : Nat → Nat) (i v : Nat) : upd f i v i = v := by
  simp [upd]

/-- Reading an untouched cell of a byte array. -/
lemma upd_other (f : Nat → Nat) (i j v : Nat) (h : j ≠ i) : upd f i v j = f j := by
  simp [upd, h]

/-- Addresses whose bus writes are plain stores with no side effects:
work RAM or high RAM, the regions a program stack normally lives in. -/
def stackSafe (a : Nat) : Prop :=
  (0xc000 ≤ a ∧ a ≤ 0xdfff) ∨ (0xff80 ≤ a ∧ a ≤ 0xfffe)

/-- Work-RAM write with the result exposed through field equations. -/
lemma bus_write_wram_ex (b : Bus) (a v : Nat) (h1 : 0xc000 ≤ a) (h2 : a ≤ 0xdfff) :
    ∃ b2, Bus.mem_write b a v = some b2 ∧ b2.wram = upd b.wram (a - 0xc000) v ∧
      b2.hram = b.hram ∧ b2.io_registers = b.io_registers :=
  ⟨_, bus_write_wram b a v h1 h2, rfl, rfl, rfl⟩

/-- High-RAM write with the result exposed through field equations. -/
lemma bus_write_hram_ex (b : Bus) (a v : Nat) (h1 : 0xff80 ≤ a) (h2 : a ≤ 0xfffe) :
    ∃ b2, Bus.mem_write b a v = some b2 ∧ b2.hram = upd b.hram (a - 0xff80) v ∧
      b2.wram = b.wram ∧ b2.io_registers = b.io_registers :=
  ⟨_, bus_write_hram b a v h1 h2, rfl, rfl, rfl⟩

/-- Cpu::call with both pushed bytes landing in work RAM or high RAM:
the call succeeds, leaves the IO registers untouched, moves SP down by
two with 16-bit wrap, jumps, and the two stack bytes read back as the
little-endian PC. -/
lemma call_safe (m : Machine) (addr : Nat)
    (hs1 : stackSafe ((m.registers.sp + 65536 - 2) % 65536))
    (hs2 : stackSafe ((m.registers.sp + 65536 - 2) % 65536 + 1)) :
    ∃ m2, Machine.call m addr = some m2 ∧
      m2.bus.io_registers = m.bus.io_registers ∧
      m2.interrupts_master_enable = m.interrupts_master_enable ∧
      m2.halted = m.halted ∧
      m2.registers.sp = (m.registers.sp + 65536 - 2) % 65536 ∧
      m2.registers.pc = addr ∧
      Bus.mem_read m2.bus ((m.registers.sp + 65536 - 2) % 65536) =
        some (m.registers.pc &&& 0xff) ∧
      Bus.mem_read m2.bus ((m.registers.sp + 65536 - 2) % 65536 + 1) =
        some ((m.registers.pc >>> 8) &&& 0xff) := by
  have hmod : ((m.registers.sp + 65536 - 2) % 65536 + 1) % 65536 =
      (m.registers.sp + 65536 - 2) % 65536 + 1 := by
    apply Nat.mod_eq_of_lt
    rcases hs2 with ⟨_, h⟩ | ⟨_, h⟩ <;> omega
  unfold Machine.call
  simp only [hmod]
  rcases hs1 with ⟨ha1, ha2⟩ | ⟨ha1, ha2⟩ <;> rcases hs2 with ⟨hb1, hb2⟩ | ⟨hb1, hb2⟩
  · obtain ⟨b1, hw1, hb1w, hb1h, hb1io⟩ :=
      bus_write_wram_ex m.bus ((m.registers.sp + 65536 - 2) % 65536)
        (m.registers.pc &&& 0xff) ha1 ha2
    rw [hw1]
    simp only []
    obtain ⟨b2, hw2, hb2w, hb2h, hb2io⟩ :=
      bus_write_wram_ex b1 ((m.registers.sp + 65536 - 2) % 65536 + 1)
        ((m.registers.pc >>> 8) &&& 0xff) hb1 hb2
    rw [hw2]
    refine ⟨_, rfl, hb2io.trans hb1io, rfl, rfl, rfl, rfl, ?_, ?_⟩
    · show Bus.mem_read b2 _ = _
      rw [bus_read_wram b2 _ ha1 ha2, hb2w, hb1w,
        upd_other _ _ _ _ (by omega), upd_same]
    · show Bus.mem_read b2 _ = _
      rw [bus_read_wram b2 _ hb1 hb2, hb2w, upd_same]
  · exfalso; omega
  · exfalso; omega
  · obtain ⟨b1, hw1, hb1h, hb1w, hb1io⟩ :=
      bus_write_hram_ex m.bus ((m.registers.sp + 65536 - 2) % 65536)
        (m.registers.pc &&& 0xff) ha1 ha2
    rw [hw1]
    simp only []
    obtain ⟨b2, hw2, hb2h, hb2w, hb2io⟩ :=
      bus_write_hram_ex b1 ((m.registers.sp + 65536 - 2) % 65536 + 1)
        ((m.registers.pc >>> 8) &&& 0xff) hb1 hb2
    rw [hw2]
    refine ⟨_, rfl, hb2io.trans hb1io, rfl, rfl, rfl, rfl, ?_, ?_⟩
    · show Bus.mem_read b2 _ = _
      rw [bus_read_hram b2 _ ha1 ha2, hb2h, hb1h,
        upd_other _ _ _ _ (by omega), upd_same]
    · show Bus.mem_read b2 _ = _
      rw [bus_read_hram b2 _ hb1 hb2, hb2h, upd_same]


/-- isrDispatch with both stack bytes landing in plain RAM: the dispatch
succeeds, jumps to the handler, clears the dispatched IF bit, restores
IME, moves SP down by two and leaves the pushed PC readable on the
stack. -/
lemma isrDispatch_safe (m : Machine) (flag vec : Nat)
    (hs1 : stackSafe ((m.registers.sp + 65536 - 2) % 65536))
    (hs2 : stackSafe ((m.registers.sp + 65536 - 2) % 65536 + 1)) :
    ∃ m2, isrDispatch m flag vec = some (m2, true) ∧
      m2.registers.pc = vec ∧
      m2.bus.io_registers.interrupt_flag =
        flagRemove m.bus.io_registers.interrupt_flag flag ∧
      m2.interrupts_master_enable = true ∧
      m2.registers.sp = (m.registers.sp + 65536 - 2) % 65536 ∧
      Bus.mem_read m2.bus ((m.registers.sp + 65536 - 2) % 65536) =
        some (m.registers.pc &&& 0xff) ∧
      Bus.mem_read m2.bus ((m.registers.sp + 65536 - 2) % 65536 + 1) =
        some ((m.registers.pc >>> 8) &&& 0xff) := by
  obtain ⟨m2, hcall, hio, hime2, hh2, hsp2, hpc2, hr1, hr2⟩ :=
    call_safe
      { m with
        interrupts_master_enable := false
        halted := false
        bus := { m.bus with io_registers := { m.bus.io_registers with
          interrupt_flag := flagRemove m.bus.io_registers.interrupt_flag flag } } }
      vec hs1 hs2
  refine ⟨{ m2 with interrupts_master_enable := true }, ?_, hpc2, ?_, rfl, hsp2,
    hr1, hr2⟩
  · unfold isrDispatch
    rw [hcall]
  · show m2.bus.io_registers.interrupt_flag = _
    rw [hio]


/-- C1, amended.  When a step begins with no DMA transfer in progress,
IME set and at least one of the five interrupt bits pending in IE & IF —
and the two stack bytes to be pushed land in work RAM or high RAM, so
that the push cannot hit a panicking bus-write address — the step clears
exactly the lowest-numbered pending bit in IF, pushes PC, jumps to the
vector 0x40 + 8k of that bit, leaves IME true, and consumes 5 machine
cycles. -/
theorem cpu_isr (m : Machine)
    (hdma : m.bus.io_registers.dma_counter = 0)
    (hime : m.interrupts_master_enable = true)
    (hpend : (m.bus.io_registers.interrupt_enable &&&
      m.bus.io_registers.interrupt_flag) &&& 0x1f ≠ 0)
    (hs1 : stackSafe ((m.registers.sp + 65536 - 2) % 65536))
    (hs2 : stackSafe ((m.registers.sp + 65536 - 2) % 65536 + 1)) :
    ∃ k m2, k < 5 ∧
      flagContains m.bus.io_registers.interrupt_enable (1 <<< k) = true ∧
      flagContains m.bus.io_registers.interrupt_flag (1 <<< k) = true ∧
      (∀ j, j < k → flagContains m.bus.io_registers.interrupt_enable (1 <<< j) = false ∨
        flagContains m.bus.io_registers.interrupt_flag (1 <<< j) = false) ∧
      Machine.execute m = some (m2, 5) ∧
      m2.registers.pc = 0x0040 + 8 * k ∧
      m2.bus.io_registers.interrupt_flag =
        flagRemove m.bus.io_registers.interrupt_flag (1 <<< k) ∧
      m2.interrupts_master_enable = true ∧
      m2.registers.sp = (m.registers.sp + 65536 - 2) % 65536 ∧
      Bus.mem_read m2.bus m2.registers.sp = some (m.registers.pc &&& 0xff) ∧
      Bus.mem_read m2.bus (m2.registers.sp + 1) =
        some ((m.registers.pc >>> 8) &&& 0xff) := by
  have hnot : ¬ ((!true : Bool) = true) := by simp
  by_cases c0 : flagContains m.bus.io_registers.interrupt_enable INT_VBLANK = true ∧
      flagContains m.bus.io_registers.interrupt_flag INT_VBLANK = true
  · obtain ⟨m2, hdisp, hpc, hif, hime2, hsp, hr1, hr2⟩ :=
      isrDispatch_safe m INT_VBLANK 0x0040 hs1 hs2
    have hisr : m.interrupt_service_routine = some (m2, true) := by
      unfold Machine.interrupt_service_routine
      rw [hime, if_neg hnot, if_pos c0, hdisp]
    refine ⟨0, m2, by norm_num, c0.1, c0.2, fun j hj => absurd hj (by omega),
      ?_, ?_, hif, hime2, hsp, ?_, ?_⟩
    · unfold Machine.execute
      rw [hdma, if_neg (by omega), hisr]
    · rw [hpc]
    · rw [hsp]
      exact hr1
    · rw [hsp]
      exact hr2
  · by_cases c1 : flagContains m.bus.io_registers.interrupt_enable INT_LCD_STAT = true ∧
        flagContains m.bus.io_registers.interrupt_flag INT_LCD_STAT = true
    · obtain ⟨m2, hdisp, hpc, hif, hime2, hsp, hr1, hr2⟩ :=
        isrDispatch_safe m INT_LCD_STAT 0x0048 hs1 hs2
      have hisr : m.interrupt_service_routine = some (m2, true) := by
        unfold Machine.interrupt_service_routine
        rw [hime, if_neg hnot, if_neg c0, if_pos c1, hdisp]
      refine ⟨1, m2, by norm_num, c1.1, c1.2, ?_, ?_, ?_, hif, hime2, hsp, ?_, ?_⟩
      · intro j hj
        have hj0 : j = 0 := by omega
        subst hj0
        rcases not_and_or.mp c0 with h | h
        · exact Or.inl (by simpa using h)
        · exact Or.inr (by simpa using h)
      · unfold Machine.execute
        rw [hdma, if_neg (by omega), hisr]
      · rw [hpc]
      · rw [hsp]
        exact hr1
      · rw [hsp]
        exact hr2
    · by_cases c2 : flagContains m.bus.io_registers.interrupt_enable INT_TIMER = true ∧
          flagContains m.bus.io_registers.interrupt_flag INT_TIMER = true
      · obtain ⟨m2, hdisp, hpc, hif, hime2, hsp, hr1, hr2⟩ :=
          isrDispatch_safe m INT_TIMER 0x0050 hs1 hs2
        have hisr : m.interrupt_service_routine = some (m2, true) := by
          unfold Machine.interrupt_service_routine
          rw [hime, if_neg hnot, if_neg c0, if_neg c1, if_pos c2, hdisp]
        refine ⟨2, m2, by norm_num, c2.1, c2.2, ?_, ?_, ?_, hif, hime2, hsp, ?_, ?_⟩
        · intro j hj
          interval_cases j
          · rcases not_and_or.mp c0 with h | h
            · exact Or.inl (by simpa using h)
            · exact Or.inr (by simpa using h)
          · rcases not_and_or.mp c1 with h | h
            · exact Or.inl (by simpa using h)
            · exact Or.inr (by simpa using h)
        · unfold Machine.execute
          rw [hdma, if_neg (by omega), hisr]
        · rw [hpc]
        · rw [hsp]
          exact hr1
        · rw [hsp]
          exact hr2
      · by_cases c3 : flagContains m.bus.io_registers.interrupt_enable INT_SERIAL = true ∧
            flagContains m.bus.io_registers.interrupt_flag INT_SERIAL = true
        · obtain ⟨m2, hdisp, hpc, hif, hime2, hsp, hr1, hr2⟩ :=
            isrDispatch_safe m INT_SERIAL 0x0058 hs1 hs2
          have hisr : m.interrupt_service_routine = some (m2, true) := by
            unfold Machine.interrupt_service_routine
            rw [hime, if_neg hnot, if_neg c0, if_neg c1, if_neg c2, if_pos c3, hdisp]
          refine ⟨3, m2, by norm_num, c3.1, c3.2, ?_, ?_, ?_, hif, hime2, hsp, ?_, ?_⟩
          · intro j hj
            interval_cases j
            · rcases not_and_or.mp c0 with h | h
              · exact Or.inl (by simpa using h)
              · exact Or.inr (by simpa using h)
            · rcases not_and_or.mp c1 with h | h
              · exact Or.inl (by simpa using h)
              · exact Or.inr (by simpa using h)
            · rcases not_and_or.mp c2 with h | h
              · exact Or.inl (by simpa using h)
              · exact Or.inr (by simpa using h)
          · unfold Machine.execute
            rw [hdma, if_neg (by omega), hisr]
          · rw [hpc]
          · rw [hsp]
            exact hr1
          · rw [hsp]
            exact hr2
        · by_cases c4 : flagContains m.bus.io_registers.interrupt_enable INT_JOYPAD = true ∧
              flagContains m.bus.io_registers.interrupt_flag INT_JOYPAD = true
          · obtain ⟨m2, hdisp, hpc, hif, hime2, hsp, hr1, hr2⟩ :=
              isrDispatch_safe m INT_JOYPAD 0x0060 hs1 hs2
            have hisr : m.interrupt_service_routine = some (m2, true) := by
              unfold Machine.interrupt_service_routine
              rw [hime, if_neg hnot, if_neg c0, if_neg c1, if_neg c2, if_neg c3,
                if_pos c4, hdisp]
            refine ⟨4, m2, by norm_num, c4.1, c4.2, ?_, ?_, ?_, hif, hime2, hsp, ?_, ?_⟩
            · intro j hj
              interval_cases j
              · rcases not_and_or.mp c0 with h | h
                · exact Or.inl (by simpa using h)
                · exact Or.inr (by simpa using h)
              · rcases not_and_or.mp c1 with h | h
                · exact Or.inl (by simpa using h)
                · exact Or.inr (by simpa using h)
              · rcases not_and_or.mp c2 with h | h
                · exact Or.inl (by simpa using h)
                · exact Or.inr (by simpa using h)
              · rcases not_and_or.mp c3 with h | h
                · exact Or.inl (by simpa using h)
                · exact Or.inr (by simpa using h)
            · unfold Machine.execute
              rw [hdma, if_neg (by omega), hisr]
            · rw [hpc]
            · rw [hsp]
              exact hr1
            · rw [hsp]
              exact hr2
          · exfalso
            obtain ⟨j, hj5, hbit⟩ := exists_bit_of_masked_ne_zero hpend
            rw [Nat.testBit_land] at hbit
            rw [Bool.and_eq_true] at hbit
            obtain ⟨hie, hif⟩ := hbit
            have hie2 : flagContains m.bus.io_registers.interrupt_enable (1 <<< j) = true := by
              rw [flagContains_two_pow]
              exact hie
            have hif2 : flagContains m.bus.io_registers.interrupt_flag (1 <<< j) = true := by
              rw [flagContains_two_pow]
              exact hif
            interval_cases j
            · exact c0 ⟨hie2, hif2⟩
            · exact c1 ⟨hie2, hif2⟩
            · exact c2 ⟨hie2, hif2⟩
            · exact c3 ⟨hie2, hif2⟩
            · exact c4 ⟨hie2, hif2⟩

/-- Power-up machine with the scenario cartridge loaded and interrupt
enable set to 0x03 (VBlank and LCD-STAT): with the power-up IF of 0xE1,
two interrupts are pending and VBlank (bit 0) has priority. -/
def machC1 : Machine := { machC2 with
  bus := { machC2.bus with io_registers :=
    { machC2.bus.io_registers with interrupt_enable := 0x03 } } }

/-- The same machine with SP moved to 0xFF17, so that the interrupt
dispatch pushes PC into the APU register range. -/
def machC1bad : Machine := { machC1 with
  registers := { machC1.registers with sp := 0xff17 } }

/-- C1, counterexample.  The claim has no proviso on where the stack
lives: on a machine with no DMA in progress, IME set and a pending bit in
IE & IF, but SP = 0xFF17, the interrupt dispatch pushes PC into the APU
register range and Cpu::execute panics (embedded as `none`) instead of
completing the 5-cycle dispatch. -/
theorem cpu_isr_refuted :
    machC1bad.bus.io_registers.dma_counter = 0 ∧
    machC1bad.interrupts_master_enable = true ∧
    ((machC1bad.bus.io_registers.interrupt_enable &&&
      machC1bad.bus.io_registers.interrupt_flag) &&& 0x1f ≠ 0) ∧
    Machine.execute machC1bad = none :=
  ⟨rfl, rfl, by decide, rfl⟩

/-- Witness for the C1 theorem at the concrete machine machC1
(IE = 0x03, IF = 0xE1, SP = 0xFFFE). -/
theorem cpu_isr_witness :
    machC1.bus.io_registers.dma_counter = 0 ∧
    machC1.interrupts_master_enable = true ∧
    ((machC1.bus.io_registers.interrupt_enable &&&
      machC1.bus.io_registers.interrupt_flag) &&& 0x1f ≠ 0) ∧
    stackSafe ((machC1.registers.sp + 65536 - 2) % 65536) ∧
    stackSafe ((machC1.registers.sp + 65536 - 2) % 65536 + 1) ∧
    (∃ k m2, k < 5 ∧
      flagContains machC1.bus.io_registers.interrupt_enable (1 <<< k) = true ∧
      flagContains machC1.bus.io_registers.interrupt_flag (1 <<< k) = true ∧
      (∀ j, j < k →
        flagContains machC1.bus.io_registers.interrupt_enable (1 <<< j) = false ∨
        flagContains machC1.bus.io_registers.interrupt_flag (1 <<< j) = false) ∧
      Machine.execute machC1 = some (m2, 5) ∧
      m2.registers.pc = 0x0040 + 8 * k ∧
      m2.bus.io_registers.interrupt_flag =
        flagRemove machC1.bus.io_registers.interrupt_flag (1 <<< k) ∧
      m2.interrupts_master_enable = true ∧
      m2.registers.sp = (machC1.registers.sp + 65536 - 2) % 65536 ∧
      Bus.mem_read m2.bus m2.registers.sp = some (machC1.registers.pc &&& 0xff) ∧
      Bus.mem_read m2.bus (m2.registers.sp + 1) =
        some ((machC1.registers.pc >>> 8) &&& 0xff)) :=
  ⟨rfl, rfl, by decide, Or.inr ⟨by decide, by decide⟩, Or.inr ⟨by decide, by decide⟩,
    cpu_isr machC1 rfl rfl (by decide) (Or.inr ⟨by decide, by decide⟩)
      (Or.inr ⟨by decide, by decide⟩)⟩

/-- Ppu::fetch_sprites never touches the dot counter. -/
lemma fetch_sprites_dot (p : Ppu) (r : IoRegisters) (h d : Nat) :
    (Ppu.fetch_sprites p r h d).dot_counter = p.dot_counter := by
  unfold Ppu.fetch_sprites
  simp only []
  repeat' split
  all_goals rfl

/-- Ppu::fetch_bg_pixels never touches the dot counter. -/
lemma fetch_bg_pixels_dot (p : Ppu) (r : IoRegisters) (w : Bool) :
    (Ppu.fetch_bg_pixels p r w).dot_counter = p.dot_counter := by
  unfold Ppu.fetch_bg_pixels
  simp only []
  repeat' split
  all_goals rfl

/-- Ppu::fetch_obj_pixels never touches the dot counter. -/
lemma fetch_obj_pixels_dot (p : Ppu) (r : IoRegisters) :
    (Ppu.fetch_obj_pixels p r).dot_counter = p.dot_counter := by
  unfold Ppu.fetch_obj_pixels
  simp only []
  repeat' split
  all_goals rfl

/-- The mode-3 body never touches the dot counter: both its early
returns and its fall-through results keep it unchanged. -/
lemma mode3_dot (p : Ppu) (r : IoRegisters) (a b c : Bool) :
    Sum.elim (fun x => x.1.dot_counter = p.dot_counter)
      (fun y => y.1.dot_counter = p.dot_counter) (Ppu.mode3 p r a b c) := by
  unfold Ppu.mode3
  simp only []
  generalize p.pixel_fetcher.tick p.vram r = pf
  by_cases h1 : 0 < p.delay
  · rw [if_pos h1]
    rfl
  · rw [if_neg h1]
    by_cases h2 : pf.bg_fifo.isEmpty = true ∧ pf.state = PixelFetcherState.Sleep
    · rw [if_pos h2]
      exact fetch_bg_pixels_dot { p with pixel_fetcher := pf } r c
    · rw [if_neg h2]
      by_cases h3 : flagContains r.lcdc OBJ_ENABLE = true ∧
          (p.sprites.any fun s => decide (p.scanline_x + 8 ≥ s.x ∧ p.scanline_x < s.x)) = true
      · rw [if_pos h3]
        exact fetch_obj_pixels_dot { p with pixel_fetcher := pf } r
      · rw [if_neg h3]
        by_cases h4 : p.scanline_x = 0 ∧ r.scx % 8 > 0 ∧
            pf.bg_fifo.tail.length ≥ 8 - r.scx % 8
        · rw [if_pos h4]
          rfl
        · rw [if_neg h4]
          rcases hh : pf.bg_fifo.head? with _ | px
          · rfl
          · simp only []
            by_cases h5 : p.scanline_x < 160 ∧ r.ly < 144
            · rw [if_pos h5]
              by_cases h6 : (p.scanline_x + 1) % 160 = 0
              · rw [if_pos h6]
                rfl
              · rw [if_neg h6]
                rfl
            · rw [if_neg h5]
              rfl

/-- The per-mode dispatch of Ppu::tick never touches the dot counter;
only the common tail does. -/
lemma tick_step_dot (p : Ppu) (r : IoRegisters) (lcd : Bool) :
    Sum.elim (fun x => x.1.dot_counter = p.dot_counter)
      (fun y => y.1.dot_counter = p.dot_counter) (Ppu.tick_step p r lcd) := by
  unfold Ppu.tick_step
  simp only []
  by_cases h1 : r.stat &&& 3 = 0
  · rw [if_pos h1]
    by_cases h2 : p.dot_counter % 456 = 0
    · rw [if_pos h2]
      by_cases h3 : r.ly = 144
      · rw [if_pos h3]
        rfl
      · rw [if_neg h3]
        rfl
    · rw [if_neg h2]
      rfl
  · rw [if_neg h1]
    by_cases h4 : r.stat &&& 3 = 1
    · rw [if_pos h4]
      by_cases h7 : p.dot_counter = 0
      · rw [if_pos h7]
        rfl
      · rw [if_neg h7]
        rfl
    · rw [if_neg h4]
      by_cases h5 : r.stat &&& 3 = 2
      · rw [if_pos h5]
        by_cases h6 : p.dot_counter % 456 = 80
        · rw [if_pos h6]
          exact fetch_sprites_dot p r _ _
        · rw [if_neg h6]
          exact fetch_sprites_dot p r _ _
      · rw [if_neg h5]
        exact mode3_dot p r lcd _ _

/-- With the LCD enabled the common tail of Ppu::tick advances the dot
counter by one with wrap at 70224, and reports a frame exactly at the
wrap. -/
lemma tick_advance_dot (m : Nat) (p : Ppu) (r : IoRegisters)
    (hdot : p.dot_counter < 70224) :
    (Ppu.tick_advance true m p r).1.dot_counter = (p.dot_counter + 1) % 70224 ∧
    ((Ppu.tick_advance true m p r).2.2 = true ↔ p.dot_counter + 1 = 70224) := by
  unfold Ppu.tick_advance
  simp only [eq_self_iff_true, if_true, decide_eq_true_eq]
  constructor
  · by_cases hw : p.dot_counter + 1 = 70224
    · rw [if_pos hw, hw, Nat.mod_self]
    · rw [if_neg hw, Nat.mod_eq_of_lt (by omega)]
  · trivial

set_option maxHeartbeats 1000000 in
/-- C4, amended.  With the LCD enabled and the dot counter in range, one
call to Ppu::tick either leaves the dot counter unchanged and reports no
frame (a mode-3 early return: the tick consumes no dot), or advances the
dot counter by exactly one with wrap at 70224 and reports a frame exactly
at the wrap.  Frame-ready signals are therefore separated by exactly
70224 dot-counter increments — but by more than 70224 tick calls, since
mode-3 stall ticks advance no dot (see the counterexample). -/
theorem ppu_frame_period (p : Ppu) (r : IoRegisters)
    (hlcd : flagContains r.lcdc LCD_PPU_ENABLE = true)
    (hdot : p.dot_counter < 70224) :
    ((Ppu.tick p r).1.dot_counter = p.dot_counter ∧ (Ppu.tick p r).2.2 = false) ∨
    ((Ppu.tick p r).1.dot_counter = (p.dot_counter + 1) % 70224 ∧
      ((Ppu.tick p r).2.2 = true ↔ p.dot_counter + 1 = 70224)) := by
  unfold Ppu.tick
  simp only [hlcd]
  have hs := tick_step_dot p (Ppu.tick_lyc r true) true
  rcases hstep : Ppu.tick_step p (Ppu.tick_lyc r true) true with ⟨xp, xr⟩ | ⟨yp, yr, ym⟩
  · rw [hstep] at hs
    left
    exact ⟨hs, rfl⟩
  · rw [hstep] at hs
    right
    have hyp : yp.dot_counter = p.dot_counter := hs
    have hy : yp.dot_counter < 70224 := by rw [hyp]; exact hdot
    have ha := tick_advance_dot ym yp yr hy
    rw [hyp] at ha
    exact ha

/-- n calls of Ppu::tick threading PPU state and registers, the way
GameBoy::tick (gameboy/mod.rs lines 64-85) drives the PPU one dot of
emulated time per call. -/
def ppuSteps : Nat → Ppu × IoRegisters → Ppu × IoRegisters
  | 0, s => s
  | n + 1, s =>
      let s2 := ppuSteps n s
      let t := Ppu.tick s2.1 s2.2
      (t.1, t.2.1)

set_option maxRecDepth 100000 in
/-- C4, counterexample.  The claim counts a PPU dot per Ppu::tick call
(GameBoy::tick issues one tick per emulated dot), so after 82 ticks from
the post-power-up state the dot counter should read 82; it reads 81,
because a mode-3 stall tick returned early without advancing a dot.  The
LCD stayed enabled throughout (LCDC still 0x91).  Successive frame
signals are therefore more than 70224 ticks apart. -/
theorem ppu_frame_period_refuted :
    (ppuSteps 82 (Ppu.new, IoRegisters.new)).1.dot_counter = 81 ∧
    (ppuSteps 82 (Ppu.new, IoRegisters.new)).2.lcdc = 0x91 ∧
    (81 : Nat) ≠ 82 := by
  exact ⟨rfl, rfl, by decide⟩

/-- Witness for the C4 theorem at the post-power-up state. -/
theorem ppu_frame_period_witness :
    flagContains IoRegisters.new.lcdc LCD_PPU_ENABLE = true ∧
    Ppu.new.dot_counter < 70224 ∧
    (((Ppu.tick Ppu.new IoRegisters.new).1.dot_counter = Ppu.new.dot_counter ∧
      (Ppu.tick Ppu.new IoRegisters.new).2.2 = false) ∨
     ((Ppu.tick Ppu.new IoRegisters.new).1.dot_counter =
        (Ppu.new.dot_counter + 1) % 70224 ∧
      ((Ppu.tick Ppu.new IoRegisters.new).2.2 = true ↔
        Ppu.new.dot_counter + 1 = 70224))) :=
  ⟨by decide, by decide,
    ppu_frame_period Ppu.new IoRegisters.new (by decide) (by decide)⟩

/-- A post-power-up PPU whose OAM entry 0 is a sprite at Y = 16, X = 0:
on scanline LY = 0 it satisfies the source's y-window test. -/
def ppuC5 : Ppu := { Ppu.new with
  vram := { Vram.new with oam := upd (fun _ => 0) 0 16 } }

/-- C5, counterexample.  The claim says a sprite is selected only if its
X is nonzero; Ppu::fetch_sprites has no X test, and on scanline 0 it
selects the OAM-slot-0 sprite with Y = 16, X = 0 (dot 1 of OAM scan,
sprite height 8). -/
theorem ppu_sprite_x0_selected :
    (Ppu.fetch_sprites ppuC5 IoRegisters.new 8 1).sprites =
      [{ y := 16, x := 0, tile_index := 0, attributes := 0, oam_index := 0 }] ∧
    ({ y := 16, x := 0, tile_index := 0, attributes := 0, oam_index := 0 } : Oam).x
      = 0 := by
  exact ⟨rfl, rfl⟩

instance : IsTotal Oam spriteLe :=
  ⟨fun a b => by unfold spriteLe; omega⟩

instance : IsTrans Oam spriteLe :=
  ⟨fun a b c hab hbc => by unfold spriteLe at *; omega⟩

/-- C5, amended.  On an odd OAM-scan dot with the sprite buffer below its
cap of 10, Ppu::fetch_sprites appends OAM entry line_dot/2 exactly when
`LY + 16` lies in the sprite's y window — there is no X ≠ 0 test; on even
dots or at the cap the buffer is unchanged, so at most 10 sprites are
ever retained; and the sort at the end of OAM scan orders the retained
sprites by X ascending with ties broken by OAM index ascending (a
permutation of the buffer, stable like Rust's sort_by). -/
theorem ppu_sprite_scan :
    (∀ (p : Ppu) (r : IoRegisters) (h ld : Nat), ld % 2 = 1 →
      p.sprites.length ≠ 10 →
      (Ppu.fetch_sprites p r h ld).sprites =
        (if p.vram.mem_read (0xfe00 + ld / 2 * 4) ≤ r.ly + 16 ∧
            r.ly + 16 - h < p.vram.mem_read (0xfe00 + ld / 2 * 4) then
          p.sprites ++
            [{ oam_index := ld % 256 / 2,
               y := p.vram.mem_read (0xfe00 + ld / 2 * 4),
               x := p.vram.mem_read (0xfe00 + ld / 2 * 4 + 1),
               tile_index := p.vram.mem_read (0xfe00 + ld / 2 * 4 + 2),
               attributes := p.vram.mem_read (0xfe00 + ld / 2 * 4 + 3) }]
         else p.sprites)) ∧
    (∀ (p : Ppu) (r : IoRegisters) (h ld : Nat), p.sprites.length ≤ 10 →
      (Ppu.fetch_sprites p r h ld).sprites.length ≤ 10) ∧
    (∀ l : List Oam, List.Sorted spriteLe (sortSprites l) ∧
      (sortSprites l).Perm l) := by
  refine ⟨?_, ?_, ?_⟩
  · intro p r h ld hodd hlen
    unfold Ppu.fetch_sprites
    simp only []
    rw [if_neg (by omega : ¬ ld % 2 = 0), if_neg hlen]
    by_cases hy : p.vram.mem_read (0xfe00 + ld / 2 * 4) ≤ r.ly + 16 ∧
        r.ly + 16 - h < p.vram.mem_read (0xfe00 + ld / 2 * 4)
    · rw [if_pos hy, if_pos hy]
    · rw [if_neg hy, if_neg hy]
  · intro p r h ld hlen
    unfold Ppu.fetch_sprites
    simp only []
    by_cases he : ld % 2 = 0
    · rw [if_pos he]
      exact hlen
    · rw [if_neg he]
      by_cases h10 : p.sprites.length = 10
      · rw [if_pos h10]
        exact hlen
      · rw [if_neg h10]
        by_cases hy : p.vram.mem_read (0xfe00 + ld / 2 * 4) ≤ r.ly + 16 ∧
            r.ly + 16 - h < p.vram.mem_read (0xfe00 + ld / 2 * 4)
        · rw [if_pos hy]
          simp only [List.length_append, List.length_cons, List.length_nil]
          omega
        · rw [if_neg hy]
          exact hlen
  · intro l
    exact ⟨List.sorted_insertionSort spriteLe l, List.perm_insertionSort spriteLe l⟩

/-- Witness for the C5 theorem: dot 1 of OAM scan on the scenario PPU
appends the y-matching sprite, keeps the cap, and sorting a concrete
two-sprite buffer orders by (x, oam_index). -/
theorem ppu_sprite_scan_witness :
    ((1 : Nat) % 2 = 1 ∧ ppuC5.sprites.length ≠ 10 ∧
      (Ppu.fetch_sprites ppuC5 IoRegisters.new 8 1).sprites =
        ppuC5.sprites ++
          [{ oam_index := 0, y := 16, x := 0, tile_index := 0, attributes := 0 }]) ∧
    (ppuC5.sprites.length ≤ 10 ∧
      (Ppu.fetch_sprites ppuC5 IoRegisters.new 8 1).sprites.length ≤ 10) :=
  ⟨⟨by decide, by decide,
     ppu_sprite_scan.1 ppuC5 IoRegisters.new 8 1 (by decide) (by decide)⟩,
   ⟨by decide, ppu_sprite_scan.2.1 ppuC5 IoRegisters.new 8 1 (by decide)⟩⟩
